import Mathlib

/-!
Verification development for the HeartWise ECG analysis core
(`ml-service/ecg_analyzer.py`).

The Python source is shallowly embedded below.  Numeric values are modelled
with exact rationals (`ℚ`); the floating-point literals `0.15`, `0.2`, `0.3`,
... of the source are taken at their intended exact values.  Calls into
numpy/scipy (`np.mean`, `np.std`, `np.diff`, `np.convolve`,
`scipy.signal.butter`/`filtfilt`, `scipy.signal.find_peaks`) are embedded by
faithful functional models of the library routines as used by this program;
where the library computes a square root (`np.std`, RMSSD) the comparison is
carried out in the mathematically equivalent squared form, or the value is
kept in `ℝ` (`Real.sqrt`) when it is stored in the output record.
Exceptions raised inside the pipeline are modelled with `Except String`.
-/

/-- Floor of a rational, written out on the numerator/denominator pair so
that kernel evaluation of concrete instances reduces; proved equal to `⌊q⌋`
in `ratFloorZ_eq` below. -/
def ratFloorZ (q : ℚ) : ℤ := q.num / q.den

/-- Python `int()` applied to a nonnegative quantity: truncation toward zero,
which on nonnegative rationals is the floor.  Used for
`int(0.15 * sample_rate)` and `int(0.2 * sample_rate)`. -/
def pyIntFloor (q : ℚ) : ℕ := (ratFloorZ q).toNat

/-- Round-half-to-even to an integer, the rounding rule of `np.round` (and of
Python's `round`); parity of the floor is tested with `% 2` so the
definition evaluates in the kernel. -/
def roundHalfEvenQ (q : ℚ) : ℤ :=
  let f := ratFloorZ q
  let r := q - f
  if r < 1/2 then f
  else if (1:ℚ)/2 < r then f + 1
  else if f % 2 = 0 then f else f + 1

/-- Model of `np.round(q, d)` on exact rationals. -/
def npRoundQ (q : ℚ) (d : ℕ) : ℚ := (roundHalfEvenQ (q * 10 ^ d) : ℚ) / 10 ^ d

/-- Round-half-to-even on `ℝ`, for the rounded square-root values the source
stores in its output (`round(sdnn, 2)` etc.). -/
noncomputable def roundHalfEvenR (x : ℝ) : ℤ :=
  let f := ⌊x⌋
  let r := x - f
  if r < 1/2 then f
  else if (1:ℝ)/2 < r then f + 1
  else if Even f then f else f + 1

/-- Model of `np.round(x, d)` on `ℝ`. -/
noncomputable def npRoundR (x : ℝ) (d : ℕ) : ℝ :=
  (roundHalfEvenR (x * 10 ^ d) : ℝ) / 10 ^ d

/-- Model of `np.abs` on a rational entry (written out so that kernel
evaluation of concrete instances reduces). -/
def absQ (q : ℚ) : ℚ := if q < 0 then -q else q

/-- Model of `np.mean` on a rational list (`sum/length`; the empty list is
never reached on the paths this development evaluates). -/
def meanQ (l : List ℚ) : ℚ := l.sum / l.length

/-- Model of `np.var`/the square of `np.std` (population variance,
numpy's default `ddof=0`): mean of squared deviations from the mean. -/
def popVarQ (l : List ℚ) : ℚ := ((l.map (fun x => (x - meanQ l) ^ 2)).sum) / l.length

/-- Model of `np.diff`: successive differences. -/
def diffQ (l : List ℚ) : List ℚ := List.zipWith (fun a b => b - a) l l.tail

/-- Model of `np.max` on a nonempty rational list. -/
def listMaxQ (l : List ℚ) : ℚ := l.foldl max (l.headD 0)

/-- Model of `np.min` on a nonempty rational list. -/
def listMinQ (l : List ℚ) : ℚ := l.foldl min (l.headD 0)

/-- Model of Python's substring test `pat in hay` on strings, used by the
rule engine (`"Normal" in classification`) and the recommendation
generator. -/
def containsSub : List Char → List Char → Bool
  | hay, pat =>
    if pat.isPrefixOf hay then true
    else
      match hay with
      | [] => false
      | _ :: t => containsSub t pat

/-- String-level wrapper for Python's `pat in hay`. -/
def pyInStr (pat hay : String) : Bool := containsSub hay.toList pat.toList

/-- All elements of a list are zero; the shape in which the flat-signal
argument walks through the filtering pipeline. -/
def AllZero (l : List ℚ) : Prop := ∀ q ∈ l, q = 0

/-!
The preprocessor (`ECGAnalyzer.preprocess`).

The source subtracts the mean and calls
`scipy.signal.butter(2, [5/nyq, 15/nyq], btype='band')` followed by
`scipy.signal.filtfilt(b, a, x)`.  The filter coefficients `b, a` produced by
`butter` are irrational; the embedding therefore takes the coefficient lists
(and scipy's steady-state vector `lfilter_zi(b, a)`) as parameters and proves
its theorems for every choice of them.  `butter`'s validation (it raises
`ValueError` unless `0 < Wn < 1`, i.e. unless `sample_rate > 30` for the 5 Hz
and 15 Hz cutoffs) and `filtfilt`'s validation (it raises `ValueError` unless
`len(x) > padlen = 3 * max(len(a), len(b))`) are modelled as `Except.error`.
-/

/-- One pass of `scipy.signal.lfilter` in the transposed direct-form-II
realisation scipy uses: state vector `z`, coefficients already normalised.
Returns the output sequence. -/
def lfilterGo (bn an : List ℚ) (z : List ℚ) : List ℚ → List ℚ
  | [] => []
  | xn :: rest =>
    (bn.headD 0 * xn + z.headD 0) ::
      lfilterGo bn an
        ((List.range z.length).map
          (fun i => bn.getD (i + 1) 0 * xn + z.getD (i + 1) 0 -
            an.getD (i + 1) 0 * (bn.headD 0 * xn + z.headD 0)))
        rest

/-- Model of `scipy.signal.lfilter(b, a, x, zi)`: coefficients are normalised
by `a[0]` and the recurrence is run from initial state `zi` (padded/truncated
to the canonical state length `max(len a, len b) - 1`). -/
def lfilter (b a : List ℚ) (zi : List ℚ) (x : List ℚ) : List ℚ :=
  lfilterGo (b.map (· / a.headD 1)) (a.map (· / a.headD 1))
    ((List.range (max b.length a.length - 1)).map (fun i => zi.getD i 0)) x

/-- Model of `scipy.signal._arraytools.odd_ext(x, n)`: odd reflection of `x`
about its endpoints, `n` samples on each side. -/
def oddExt (x : List ℚ) (n : ℕ) : List ℚ :=
  ((List.range n).map (fun i => 2 * x.headD 0 - x.getD (n - i) 0))
    ++ x
    ++ ((List.range n).map (fun i => 2 * x.getLastD 0 - x.getD (x.length - 2 - i) 0))

/-- The forward pass of `filtfilt` (`method='pad'`): filter the extended
signal from initial state `zi * ext[0]`, where `zi` stands for scipy's
`lfilter_zi(b, a)` steady-state vector and is a parameter of the model. -/
def filtfiltForward (b a zi : List ℚ) (ext : List ℚ) : List ℚ :=
  lfilter b a (zi.map (· * ext.headD 0)) ext

/-- The backward pass of `filtfilt`: filter the reversed forward output from
state `zi * y[-1]` and reverse back. -/
def filtfiltBackward (b a zi : List ℚ) (y1 : List ℚ) : List ℚ :=
  (lfilter b a (zi.map (· * y1.getLastD 0)) y1.reverse).reverse

/-- Model of `scipy.signal.filtfilt(b, a, x)` with its defaults: odd-extend
by `padlen = 3 * max(len(a), len(b))`, forward pass, backward pass, strip the
padding. -/
def filtfilt (b a zi : List ℚ) (x : List ℚ) : List ℚ :=
  ((filtfiltBackward b a zi
      (filtfiltForward b a zi (oddExt x (3 * max a.length b.length)))).drop
    (3 * max a.length b.length)).take x.length

/-- Error message of scipy's `butter` when a critical frequency is outside
`(0, 1)` of Nyquist, which for this program's fixed 5/15 Hz cutoffs happens
exactly when `sample_rate ≤ 30`. -/
def wnErrMsg : String := "Digital filter critical frequencies must be 0 < Wn < 1"

/-- Error message of scipy's `filtfilt` when the input is not longer than the
default padding length `3 * max(len(a), len(b))`. -/
def padlenErrMsg : String := "The length of the input vector x must be greater than padlen"

/-- Embedding of `ECGAnalyzer.preprocess`: subtract the mean, then band-pass
filter with `filtfilt`; library validation failures become `Except.error`.
The `butter` check runs first, exactly as in the source. -/
def preprocess (b a zi : List ℚ) (x : List ℚ) (sr : ℚ) : Except String (List ℚ) :=
  if 5 / (sr / 2) ≤ 0 ∨ 1 ≤ 15 / (sr / 2) then .error wnErrMsg
  else if x.length ≤ 3 * max a.length b.length then .error padlenErrMsg
  else .ok (filtfilt b a zi (x.map (fun v => v - meanQ x)))

/-!
The QRS detector (`ECGAnalyzer.detect_qrs_pan_tompkins`): derivative,
squaring, moving-window integration (`np.convolve(..., mode='same')`), then
`scipy.signal.find_peaks(integrated, height=0.3*max, distance=int(0.2*sr))`.
-/

/-- Model of full discrete convolution `np.convolve(u, v)` (mode `'full'`). -/
def convFull (u v : List ℚ) : List ℚ :=
  (List.range (u.length + v.length - 1)).map
    (fun k => ((List.range u.length).map
      (fun i => if i ≤ k then u.getD i 0 * v.getD (k - i) 0 else 0)).sum)

/-- Model of `np.convolve(u, v, mode='same')`: the centred
`max(len u, len v)` samples of the full convolution. -/
def convolveSame (u v : List ℚ) : List ℚ :=
  ((convFull u v).drop ((min u.length v.length - 1) / 2)).take (max u.length v.length)

/-- Helper for the local-maxima scan of `scipy.signal._local_maxima_1d`: the
first index `j' ≥ j` that either reaches `len - 1` or holds a value different
from `v`.  Structural fuel recursion (the fuel `x.length` always suffices
because the index strictly increases). -/
def plateauEnd (x : List ℚ) (v : ℚ) : ℕ → ℕ → ℕ
  | 0, j => j
  | fuel + 1, j =>
    if j < x.length - 1 then
      (if x.getD j 0 = v then plateauEnd x v fuel (j + 1) else j)
    else j

/-- Model of `scipy.signal._local_maxima_1d`, the first stage of
`find_peaks`: scan indices `1 ≤ i < len - 1`; on a strict rise find the end
of the (possibly flat) top; if the signal then falls, record the plateau
midpoint and resume after the plateau.  Fuel recursion as above. -/
def lmAux (x : List ℚ) : ℕ → ℕ → List ℕ
  | 0, _ => []
  | fuel + 1, i =>
    if i < x.length - 1 then
      (if x.getD (i - 1) 0 < x.getD i 0 then
        (if x.getD (plateauEnd x (x.getD i 0) x.length (i + 1)) 0 < x.getD i 0 then
          (i + plateauEnd x (x.getD i 0) x.length (i + 1) - 1) / 2 ::
            lmAux x fuel (plateauEnd x (x.getD i 0) x.length (i + 1) + 1)
         else lmAux x fuel (i + 1))
       else lmAux x fuel (i + 1))
    else []

/-- All local maxima (plateau midpoints) of a signal, indices in increasing
order; entry point matching scipy's scan from index 1. -/
def localMaxima (x : List ℚ) : List ℕ := lmAux x x.length 1

/-- Stable insertion into an ascending-by-key index list (equal keys keep
their original relative order, earlier index first). -/
def insertIdx (key : ℕ → ℚ) (i : ℕ) : List ℕ → List ℕ
  | [] => [i]
  | j :: t => if key i < key j then i :: j :: t else j :: insertIdx key i t

/-- Stable sort of an index list by ascending key: model of
`np.argsort(priority)` as used by `find_peaks` (numpy's default quicksort is
unstable, so tie order may differ; every property proved below is independent
of the processing order). -/
def sortIdx (key : ℕ → ℚ) : List ℕ → List ℕ
  | [] => []
  | i :: t => insertIdx key i (sortIdx key t)

/-- One step of `scipy.signal._peak_finding_utils._select_by_peak_distance`:
when peak `j` is still kept, un-keep every other peak whose position is
within `distance` of it.  (For the sorted position lists produced by
`localMaxima`, removing neighbours while they are closer than `distance` is
the same as this global sweep.) -/
def pruneStep (peaks : List ℕ) (d : ℕ) (keep : List Bool) (j : ℕ) : List Bool :=
  if keep.getD j false then
    (List.range keep.length).map
      (fun k => keep.getD k false &&
        (k == j || decide (d ≤ ((peaks.getD k 0 : ℤ) - (peaks.getD j 0 : ℤ)).natAbs)))
  else keep

/-- Model of `_select_by_peak_distance(peaks, priority, distance)`: process
peaks from highest to lowest priority, discarding any peak closer than
`distance` to a higher-priority kept peak; returns the keep mask. -/
def selectByDist (peaks : List ℕ) (pri : List ℚ) (d : ℕ) : List Bool :=
  ((sortIdx (fun i => pri.getD i 0) (List.range peaks.length)).reverse).foldl
    (pruneStep peaks d) (List.replicate peaks.length true)

/-- Model of `scipy.signal.find_peaks(x, height=h, distance=d)` as used by
this program: local maxima, then the height filter (`x[p] ≥ h`), then the
distance filter. -/
def findPeaksHD (x : List ℚ) (h : ℚ) (d : ℕ) : List ℕ :=
  let lm := localMaxima x
  let hm := lm.filter (fun p => decide (h ≤ x.getD p 0))
  let keep := selectByDist hm (hm.map (fun p => x.getD p 0)) d
  ((List.range hm.length).filter (fun k => keep.getD k false)).map (fun k => hm.getD k 0)

/-- The integrated Pan-Tompkins signal: first-difference of the filtered
trace, point-wise square, then the 150 ms moving-average integration
`np.convolve(squared, np.ones(w)/w, 'same')` with `w = int(0.15*sr)`. -/
def integratedOf (filtered : List ℚ) (sr : ℚ) : List ℚ :=
  convolveSame ((diffQ filtered).map (fun v => v ^ 2))
    (List.replicate (pyIntFloor (3 / 20 * sr)) (1 / ((pyIntFloor (3 / 20 * sr) : ℕ) : ℚ)))

/-- Embedding of `ECGAnalyzer.detect_qrs_pan_tompkins`: preprocess, build the
integrated signal, then peak picking with height threshold
`0.3 * max(integrated)` and refractory distance `int(0.2 * sr)`.  An
exception from `preprocess` propagates, as in the source. -/
def detect_qrs_pan_tompkins (b a zi : List ℚ) (x : List ℚ) (sr : ℚ) :
    Except String (List ℕ) :=
  (preprocess b a zi x sr).bind (fun filtered =>
    .ok (findPeaksHD (integratedOf filtered sr)
      (3 / 10 * listMaxQ (integratedOf filtered sr)) (pyIntFloor (1 / 5 * sr))))

/-!
Rate and variability (`calculate_heart_rate`, `calculate_hrv`), the
rule-based arrhythmia classifier (`detect_arrhythmias`), signal quality,
confidence, recommendations and the orchestrator (`analyze`).

The source compares `np.std`-derived quantities (coefficient of variation,
2-sigma outliers).  Those comparisons are embedded in the exactly equivalent
squared form over `ℚ` (justified by `cv_sqrt_comparison_iff` and
`abs_gt_two_std_iff` below); the square-root values the source *stores* in
its output (SDNN, RMSSD, the displayed std deviation) are kept in `ℝ`.
-/

/-- Embedding of `ECGAnalyzer.calculate_heart_rate`: fewer than two R-peaks
yield rate 0 and no intervals; otherwise the RR intervals are the successive
peak differences divided by the sample rate and the rate is `60 / mean`. -/
def calculate_heart_rate (r_peaks : List ℕ) (sr : ℚ) : ℚ × List ℚ :=
  if r_peaks.length < 2 then (0, [])
  else
    let rr := List.zipWith (fun (p q : ℕ) => (((q : ℤ) - (p : ℤ) : ℤ) : ℚ) / sr)
      r_peaks r_peaks.tail
    (60 / meanQ rr, rr)

/-- The HRV record of `calculate_hrv`; SDNN and RMSSD are square roots and
therefore live in `ℝ`, pNN50 is rational. -/
structure HRVMetrics where
  SDNN : ℝ
  RMSSD : ℝ
  pNN50 : ℚ

/-- Embedding of `ECGAnalyzer.calculate_hrv`: with fewer than 2 intervals all
metrics are 0; otherwise SDNN is the population standard deviation of the
intervals in ms, RMSSD the root mean square of their successive differences,
pNN50 the percentage of successive differences exceeding 50 ms — each passed
through `round(·, 2)`. -/
noncomputable def calculate_hrv (rr : List ℚ) : HRVMetrics :=
  if rr.length < 2 then ⟨0, 0, 0⟩
  else
    let rr_ms := rr.map (fun v => v * 1000)
    let diff_rr := diffQ rr_ms
    let nn50 := diff_rr.countP (fun q => decide (50 < absQ q))
    let pnn50 : ℚ := if 0 < diff_rr.length then ((nn50 : ℚ) / diff_rr.length) * 100 else 0
    let msq : ℚ := ((diff_rr.map (fun v => v ^ 2)).sum) / diff_rr.length
    { SDNN := npRoundR (Real.sqrt (popVarQ rr_ms)) 2
      RMSSD := npRoundR (Real.sqrt (msq : ℚ)) 2
      pNN50 := npRoundQ pnn50 2 }

/-- An abnormality finding of the rule engine.  `type`, `severity` and
`recommendation` are the exact strings of the source; the free-text
`description` (an f-string interpolating formatted numbers) is not modelled —
no verified claim mentions it. -/
structure Abnormality where
  type : String
  severity : String
  recommendation : String
deriving DecidableEq, Repr

/-- The mutable triple `(classification, abnormalities, risk_level)` the rule
engine threads through its five sequential rules. -/
structure ArrState where
  classification : String
  abnormalities : List Abnormality
  risk : String
deriving DecidableEq, Repr

/-- Initial rule-engine state (lines 174–176 of the source). -/
def arrInit : ArrState := ⟨"Normal Sinus Rhythm", [], "Low"⟩

/-- The source's test `coefficient_of_variation > t` where
`coefficient_of_variation = std(rr)/mean(rr) * 100 if mean > 0 else 0`, for a
nonnegative literal threshold `t`, in the equivalent squared form
(`std > t*mean/100  ↔  10000*var > t²*mean²` for positive mean). -/
def cvGt (rr : List ℚ) (t : ℚ) : Bool :=
  decide (0 < meanQ rr) && decide (t ^ 2 * (meanQ rr) ^ 2 < 10000 * popVarQ rr)

/-- The bradycardia finding of rule 1 (severity filled per branch). -/
def bradyFinding (sev : String) : Abnormality :=
  ⟨"Sinus Bradycardia", sev,
   "Monitor for symptoms like dizziness or fatigue. Consult cardiologist if persistent."⟩

/-- The critical ventricular-tachycardia finding of rule 2. -/
def vtFinding : Abnormality :=
  ⟨"Ventricular Tachycardia", "Critical", "SEEK IMMEDIATE MEDICAL ATTENTION"⟩

/-- The sinus-tachycardia finding of rule 2 (severity per branch). -/
def tachyFinding (sev : String) : Abnormality :=
  ⟨"Sinus Tachycardia", sev,
   "May be caused by exercise, stress, fever, or caffeine. Rest and monitor."⟩

/-- The atrial-fibrillation finding of rule 3. -/
def afibFinding : Abnormality :=
  ⟨"Atrial Fibrillation", "High",
   "AFib increases stroke risk. Consult cardiologist for anticoagulation therapy."⟩

/-- The irregular-rhythm finding of rule 3's else branch. -/
def irregularFinding : Abnormality :=
  ⟨"Irregular Rhythm", "Medium",
   "Monitor for pattern. Could be premature beats or sinus arrhythmia."⟩

/-- The PVC finding of rule 4. -/
def pvcFinding : Abnormality :=
  ⟨"Premature Ventricular Contractions", "Medium",
   "Frequent PVCs may require evaluation. Avoid caffeine and stress."⟩

/-- The default "Normal" finding of rule 5. -/
def normalFinding : Abnormality :=
  ⟨"Normal", "None", "Heart rhythm appears normal. Continue healthy lifestyle."⟩

/-- Rule 1, bradycardia (`if heart_rate < 60`): a finding is appended and the
classification set to "Sinus Bradycardia"; below 40 BPM severity/risk are
High, otherwise Medium. -/
def rule1 (hr : ℚ) (s : ArrState) : ArrState :=
  if hr < 60 then
    if hr < 40 then
      ⟨"Sinus Bradycardia", s.abnormalities ++ [bradyFinding "High"], "High"⟩
    else
      ⟨"Sinus Bradycardia", s.abnormalities ++ [bradyFinding "Medium"], "Medium"⟩
  else s

/-- Rule 2, tachycardia (`elif heart_rate > 100`, so it fires only when rule
1 did not): above 150 BPM with CV > 15 % the classification becomes
ventricular tachycardia with a Critical finding; otherwise sinus tachycardia
with severity High (above 150) or Medium; the sinus-tachycardia finding is
appended only when the classification ended up "Sinus Tachycardia", exactly
as the source's equality test does. -/
def rule2 (hr : ℚ) (rr : List ℚ) (s : ArrState) : ArrState :=
  if ¬ hr < 60 ∧ 100 < hr then
    let branch : String × String × String × List Abnormality :=
      if 150 < hr then
        if cvGt rr 15 then
          ("High", "High", "Ventricular Tachycardia (Suspected)",
           s.abnormalities ++ [vtFinding])
        else ("High", "High", "Sinus Tachycardia", s.abnormalities)
      else ("Medium", "Medium", "Sinus Tachycardia", s.abnormalities)
    match branch with
    | (sev, risk, cls, ab) =>
      let ab2 := if cls = "Sinus Tachycardia" then ab ++ [tachyFinding sev] else ab
      ⟨cls, ab2, risk⟩
  else s

/-- Rule 3, irregularity / atrial fibrillation (evaluated unconditionally):
when CV > 20 %, count successive RR differences above 0.12 s; if they exceed
30 % of all intervals the finding is AFib (severity High, risk High) and the
classification is overwritten; otherwise an Irregular-Rhythm finding
(severity Medium) is appended, risk set to Medium, and the classification
renamed to "Sinus Arrhythmia" only when it is still the default. -/
def rule3 (rr : List ℚ) (s : ArrState) : ArrState :=
  if cvGt rr 20 then
    let largeDiffs := ((diffQ rr).map absQ).countP (fun q => decide (12/100 < q))
    if (rr.length : ℚ) * (3/10) < (largeDiffs : ℚ) then
      ⟨"Atrial Fibrillation (Suspected)", s.abnormalities ++ [afibFinding], "High"⟩
    else
      ⟨(if s.classification = "Normal Sinus Rhythm" then "Sinus Arrhythmia"
        else s.classification),
       s.abnormalities ++ [irregularFinding], "Medium"⟩
  else s

/-- Rule 4, premature ventricular contractions (needs more than 3 intervals):
intervals deviating from the mean by more than two standard deviations
(squared comparison `(x - mean)² > 4·var`) are outliers; above 10 % of all
intervals a PVC finding is appended, risk set to Medium, and the
classification renamed only when it still contains "Normal". -/
def rule4 (rr : List ℚ) (s : ArrState) : ArrState :=
  if 3 < rr.length then
    let pvc := rr.countP (fun x => decide (4 * popVarQ rr < (x - meanQ rr) ^ 2))
    if 0 < pvc then
      if 10 < ((pvc : ℚ) / rr.length) * 100 then
        ⟨(if pyInStr "Normal" s.classification then "Premature Ventricular Contractions"
          else s.classification),
         s.abnormalities ++ [pvcFinding], "Medium"⟩
      else s
    else s
  else s

/-- The test of rule 3's atrial-fibrillation branch (line 243 of the
source): more than 30 % of all intervals show a successive difference above
0.12 s. -/
def afibLargeDiffCond (rr : List ℚ) : Bool :=
  decide ((rr.length : ℚ) * (3/10) <
    ((((diffQ rr).map absQ).countP (fun q => decide (12/100 < q)) : ℕ) : ℚ))

/-- The firing condition of rule 4 (more than 3 intervals, at least one
2-sigma outlier, outliers above 10 % of all intervals). -/
def pvcFires (rr : List ℚ) : Bool :=
  decide (3 < rr.length) &&
  decide (0 < rr.countP (fun x => decide (4 * popVarQ rr < (x - meanQ rr) ^ 2))) &&
  decide (10 < ((rr.countP (fun x => decide (4 * popVarQ rr < (x - meanQ rr) ^ 2)) : ℚ)
    / rr.length) * 100)

/-- Rule 5, default: only when no finding was appended, record a "Normal"
finding and force classification/risk back to the defaults. -/
def rule5 (s : ArrState) : ArrState :=
  if s.abnormalities = [] then ⟨"Normal Sinus Rhythm", [normalFinding], "Low"⟩ else s

/-- Embedding of `ECGAnalyzer.detect_arrhythmias`: fewer than two RR
intervals short-circuit to ("Insufficient Data", [], "Unknown"); otherwise
the five rules run sequentially on the initial state. -/
def detect_arrhythmias (hr : ℚ) (rr : List ℚ) : String × List Abnormality × String :=
  if rr.length < 2 then ("Insufficient Data", [], "Unknown")
  else
    let s := rule5 (rule4 rr (rule3 rr (rule2 hr rr (rule1 hr arrInit))))
    (s.classification, s.abnormalities, s.risk)

/-- The successive rule-engine states (initial state, then after each of the
five rules), for stating how the risk level evolves across the rules. -/
def arrTrace (hr : ℚ) (rr : List ℚ) : List ArrState :=
  let s0 := arrInit
  let s1 := rule1 hr s0
  let s2 := rule2 hr rr s1
  let s3 := rule3 rr s2
  let s4 := rule4 rr s3
  let s5 := rule5 s4
  [s0, s1, s2, s3, s4, s5]

/-- Numeric rank of a risk label, for stating monotonicity:
Low < Medium < High. -/
def riskRank : String → ℕ
  | "Medium" => 1
  | "High" => 2
  | _ => 0

/-- The signal-quality record of `_assess_signal_quality`; the displayed
standard deviation is a square root and lives in `ℝ`. -/
structure SignalQuality where
  quality : String
  score : ℚ
  std_deviation : ℝ
  signal_range : ℚ

/-- Embedding of `ECGAnalyzer._assess_signal_quality` on the raw signal:
std < 10 or peak-to-peak range < 50 is Poor (0.3); std < 50 or range < 200 is
Fair (0.6); otherwise Good (0.9).  The std comparisons are in squared form. -/
noncomputable def assess_signal_quality (x : List ℚ) : SignalQuality :=
  ⟨(if popVarQ x < 100 ∨ listMaxQ x - listMinQ x < 50 then (("Poor", (3:ℚ)/10) : String × ℚ)
    else if popVarQ x < 2500 ∨ listMaxQ x - listMinQ x < 200 then ("Fair", 6/10)
    else ("Good", 9/10)).1,
   (if popVarQ x < 100 ∨ listMaxQ x - listMinQ x < 50 then (("Poor", (3:ℚ)/10) : String × ℚ)
    else if popVarQ x < 2500 ∨ listMaxQ x - listMinQ x < 200 then ("Fair", 6/10)
    else ("Good", 9/10)).2,
   npRoundR (Real.sqrt (popVarQ x)) 2,
   npRoundQ (listMaxQ x - listMinQ x) 2⟩

/-- The confidence computation inlined in `analyze` (lines 318–323): Good
quality with more than 10 peaks, Fair with more than 5, otherwise 0.50. -/
def confidence_calc (quality : String) (peakCount : ℕ) : ℚ :=
  if quality = "Good" ∧ 10 < peakCount then
    85/100 + ((min peakCount 50 : ℚ) / 50) * (15/100)
  else if quality = "Fair" ∧ 5 < peakCount then
    65/100 + ((min peakCount 50 : ℚ) / 50) * (20/100)
  else 1/2

/-- The rhythm label computed in `analyze`: with intervals present,
"Regular" iff CV < 10 % (CV counted as 100 when the mean is not positive),
embedded in squared form; without intervals, "Unknown". -/
def rhythmLabel (rr : List ℚ) : String :=
  if 0 < rr.length then
    (if decide (0 < meanQ rr) && decide (10000 * popVarQ rr < 100 * (meanQ rr) ^ 2)
     then "Regular" else "Irregular")
  else "Unknown"

/-- Embedding of `ECGAnalyzer._generate_recommendations`: advice blocks keyed
on the risk level and on substrings of the classification, accumulated in the
source's fixed order.  The `heart_rate` parameter is unused, as in the
source. -/
def generate_recommendations (classification risk_level : String) (heart_rate : ℚ) :
    List String :=
  (if risk_level = "Critical" ∨ risk_level = "High" then
    ["⚠️ IMPORTANT: Consult a cardiologist as soon as possible",
     "📱 Consider wearing a continuous heart monitor"] else [])
  ++ (if pyInStr "Tachycardia" classification then
    ["🧘 Practice relaxation techniques and reduce stress",
     "☕ Limit caffeine and stimulant intake",
     "💊 Review medications with your doctor"] else [])
  ++ (if pyInStr "Bradycardia" classification then
    ["⚡ Monitor for symptoms like dizziness or fatigue",
     "🏃 Discuss exercise tolerance with your doctor"] else [])
  ++ (if pyInStr "Fibrillation" classification then
    ["💊 Anticoagulation therapy may be needed - consult doctor",
     "🩺 Regular ECG monitoring recommended",
     "🚫 Avoid alcohol and excessive caffeine"] else [])
  ++ (if classification = "Normal Sinus Rhythm" then
    ["✅ Heart rhythm is normal",
     "🏃 Continue regular exercise and healthy diet",
     "📊 Monitor periodically for baseline comparison"] else [])

/-- The `heartRateRange` sub-record of the result details. -/
structure HeartRateRange where
  min : ℚ
  max : ℚ

/-- The `details` sub-record of an analysis result.  The error record of the
source carries only `error`, `heartRate`, `rhythm` and `abnormalities`; the
fields absent there are `Option`s. -/
structure AnalysisDetails where
  heartRate : ℚ
  heartRateRange : Option HeartRateRange
  rhythm : String
  qrsCount : Option ℕ
  hrv : Option HRVMetrics
  abnormalities : List Abnormality
  signalQuality : Option SignalQuality
  error : Option String

/-- The result record returned by `analyze` (success and error shapes). -/
structure AnalysisResult where
  classification : String
  confidence : ℚ
  risk_level : String
  details : AnalysisDetails
  analysis_type : String
  recommendations : Option (List String)

/-- Assembly of the success record of `ECGAnalyzer.analyze` from the signal
quality, the detected R-peaks and the sample rate: rate/HRV computation,
rule-based classification, confidence, rhythm label, rounded display values
and recommendations. -/
noncomputable def buildResult (sq : SignalQuality) (r_peaks : List ℕ) (sr : ℚ) :
    AnalysisResult :=
  let hrRR := calculate_heart_rate r_peaks sr
  let heart_rate := hrRR.1
  let rr_intervals := hrRR.2
  let hrv_metrics := calculate_hrv rr_intervals
  let car := detect_arrhythmias heart_rate rr_intervals
  let confidence := confidence_calc sq.quality r_peaks.length
  { classification := car.1
    confidence := npRoundQ confidence 3
    risk_level := car.2.2
    details :=
      { heartRate := npRoundQ heart_rate 1
        heartRateRange := some
          ⟨(if 0 < rr_intervals.length then npRoundQ (60 / listMaxQ rr_intervals) 1 else 0),
           (if 0 < rr_intervals.length then npRoundQ (60 / listMinQ rr_intervals) 1 else 0)⟩
        rhythm := rhythmLabel rr_intervals
        qrsCount := some r_peaks.length
        hrv := some hrv_metrics
        abnormalities := car.2.1
        signalQuality := some sq
        error := none }
    analysis_type := "hybrid_ml_enhanced"
    recommendations := some (generate_recommendations car.1 car.2.2 heart_rate) }

/-- The happy path of `ECGAnalyzer.analyze`, with the pipeline exceptions
carried in `Except`: assess quality, detect QRS, then assemble the success
record. -/
noncomputable def analyzePipeline (b a zi : List ℚ) (x : List ℚ) (sr : ℚ) :
    Except String AnalysisResult :=
  (detect_qrs_pan_tompkins b a zi x sr).bind (fun r_peaks =>
    .ok (buildResult (assess_signal_quality x) r_peaks sr))

/-- The degraded record built by `analyze`'s `except` clause. -/
def errorRecord (e : String) : AnalysisResult :=
  { classification := "Analysis Error"
    confidence := 0
    risk_level := "Unknown"
    details :=
      { heartRate := 0, heartRateRange := none, rhythm := "Unknown", qrsCount := none
        hrv := none, abnormalities := [], signalQuality := none, error := some e }
    analysis_type := "error"
    recommendations := none }

/-- Embedding of `ECGAnalyzer.analyze`: the pipeline's exception, if any, is
caught at this boundary and converted to the degraded record; the function is
total — no fault propagates. -/
noncomputable def analyze (b a zi : List ℚ) (x : List ℚ) (sr : ℚ) : AnalysisResult :=
  match analyzePipeline b a zi x sr with
  | .ok r => r
  | .error e => errorRecord e

/-!
Specification-side definitions for the HRV claim: these follow the words of
§4.3 of the spec ("SDNN = population standard deviation of RR intervals
(ms); RMSSD = root-mean-square of first differences of RR intervals (ms);
pNN50 = percentage of successive RR-interval differences exceeding 50 ms"),
to be compared with the source's `calculate_hrv`. -/

/-- Spec §4.3: population standard deviation of the RR intervals in
milliseconds. -/
noncomputable def specSDNN (rr : List ℚ) : ℝ := Real.sqrt (popVarQ (rr.map (fun v => v * 1000)))

/-- Spec §4.3: root mean square of the first differences of the RR intervals
in milliseconds. -/
noncomputable def specRMSSD (rr : List ℚ) : ℝ :=
  let d := diffQ (rr.map (fun v => v * 1000))
  Real.sqrt ((((d.map (fun v => v ^ 2)).sum) / d.length : ℚ))

/-- Spec §4.3: percentage of successive RR-interval differences exceeding
50 ms. -/
def specPNN50 (rr : List ℚ) : ℚ :=
  let d := diffQ (rr.map (fun v => v * 1000))
  ((d.countP (fun q => decide (50 < absQ q)) : ℚ) / d.length) * 100

/-!
Supporting lemmas: the explicit floor agrees with `Int.floor`, rounding is
the identity on values that are already exact at the rounded precision, and
the squared comparisons used by the embedding agree with the source's
square-root comparisons.
-/

theorem ratFloorZ_eq (q : ℚ) : ratFloorZ q = ⌊q⌋ := Rat.floor_def.symm

theorem roundHalfEvenQ_intCast (z : ℤ) : roundHalfEvenQ (z : ℚ) = z := by
  unfold roundHalfEvenQ
  rw [ratFloorZ_eq, Int.floor_intCast]
  simp

theorem npRoundQ_exact (z : ℤ) (d : ℕ) : npRoundQ ((z : ℚ) / 10 ^ d) d = (z : ℚ) / 10 ^ d := by
  unfold npRoundQ
  have h10 : ((10 : ℚ) ^ d) ≠ 0 := by positivity
  rw [div_mul_cancel₀ _ h10, roundHalfEvenQ_intCast]

/-- The source's comparison `std(l)/mean(l) * 100 > t` (with positive mean
and nonnegative threshold) is exactly the squared comparison performed by
`cvGt`. -/
theorem cv_sqrt_comparison_iff (v m t : ℝ) (hm : 0 < m) (hv : 0 ≤ v) (ht : 0 ≤ t) :
    t < Real.sqrt v / m * 100 ↔ t ^ 2 * m ^ 2 < 10000 * v := by
  rw [div_mul_eq_mul_div, lt_div_iff₀ hm]
  rw [show (100:ℝ) = Real.sqrt 10000 by
        rw [show (10000:ℝ) = 100 ^ 2 by norm_num, Real.sqrt_sq (by norm_num)]]
  rw [← Real.sqrt_mul hv]
  rw [show t * m = Real.sqrt ((t * m) ^ 2) by rw [Real.sqrt_sq (by positivity)]]
  rw [Real.sqrt_lt_sqrt_iff (by positivity)]
  constructor <;> intro h <;> nlinarith

/-- The source's outlier test `|x - mean| > 2 * std` is exactly the squared
comparison performed by rule 4. -/
theorem abs_gt_two_std_iff (x mu v : ℝ) (hv : 0 ≤ v) :
    2 * Real.sqrt v < |x - mu| ↔ 4 * v < (x - mu) ^ 2 := by
  rw [show (2 : ℝ) * Real.sqrt v = Real.sqrt (4 * v) by
        rw [Real.sqrt_mul (by norm_num) v, show (4:ℝ) = 2 ^ 2 by norm_num,
          Real.sqrt_sq (by norm_num)]]
  rw [show |x - mu| = Real.sqrt ((x - mu) ^ 2) by rw [Real.sqrt_sq_eq_abs]]
  rw [Real.sqrt_lt_sqrt_iff (by positivity)]

/-!
Claim C9: the insufficient-data path of `detect_arrhythmias` and the
peak-count bound that feeds it.
-/

/-- C9: for every input with fewer than 2 RR intervals, `detect_arrhythmias`
returns classification "Insufficient Data", an empty abnormalities list and
risk level "Unknown"; and fewer than 3 detected R-peaks always produce fewer
than 2 RR intervals. -/
theorem C9_insufficient_data (hr : ℚ) (rr : List ℚ) (peaks : List ℕ) (sr : ℚ) :
    (rr.length < 2 → detect_arrhythmias hr rr = ("Insufficient Data", [], "Unknown")) ∧
    (peaks.length < 3 → (calculate_heart_rate peaks sr).2.length < 2) := by
  constructor
  · intro h
    unfold detect_arrhythmias
    rw [if_pos h]
  · intro h
    unfold calculate_heart_rate
    by_cases h2 : peaks.length < 2
    · rw [if_pos h2]
      simp
    · rw [if_neg h2]
      rw [List.length_zipWith, List.length_tail]
      omega

/-- Witness for C9 at the concrete empty inputs. -/
theorem C9_witness :
    (([] : List ℚ).length < 2 ∧
      detect_arrhythmias 0 [] = ("Insufficient Data", [], "Unknown")) ∧
    (([] : List ℕ).length < 3 ∧ (calculate_heart_rate [] 250).2.length < 2) :=
  ⟨⟨by decide, (C9_insufficient_data 0 [] [] 250).1 (by decide)⟩,
   ⟨by decide, (C9_insufficient_data 0 [] [] 250).2 (by decide)⟩⟩

/-!
Rule-engine lemmas: how each rule transforms the state, as needed for claims
C2, C3 and C10.
-/

theorem rule1_not_fire (hr : ℚ) (s : ArrState) (h : ¬ hr < 60) : rule1 hr s = s := by
  unfold rule1
  rw [if_neg h]

theorem rule2_not_fire (hr : ℚ) (rr : List ℚ) (s : ArrState)
    (h : ¬ (¬ hr < 60 ∧ 100 < hr)) : rule2 hr rr s = s := by
  unfold rule2
  rw [if_neg h]

theorem rule3_afib (rr : List ℚ) (s : ArrState) (hcv : cvGt rr 20 = true)
    (hld : afibLargeDiffCond rr = true) :
    rule3 rr s =
      ⟨"Atrial Fibrillation (Suspected)", s.abnormalities ++ [afibFinding], "High"⟩ := by
  have hld' := of_decide_eq_true hld
  unfold rule3
  rw [if_pos hcv, if_pos hld']

theorem rule3_irregular (rr : List ℚ) (s : ArrState) (hcv : cvGt rr 20 = true)
    (hld : afibLargeDiffCond rr = false) :
    rule3 rr s =
      ⟨(if s.classification = "Normal Sinus Rhythm" then "Sinus Arrhythmia"
        else s.classification),
       s.abnormalities ++ [irregularFinding], "Medium"⟩ := by
  have hld' := of_decide_eq_false hld
  unfold rule3
  rw [if_pos hcv, if_neg hld']

theorem rule3_not_fire (rr : List ℚ) (s : ArrState) (hcv : cvGt rr 20 = false) :
    rule3 rr s = s := by
  unfold rule3
  rw [if_neg (by simp [hcv])]

theorem rule4_eq (rr : List ℚ) (s : ArrState) :
    rule4 rr s =
      (if pvcFires rr then
        ⟨(if pyInStr "Normal" s.classification then "Premature Ventricular Contractions"
          else s.classification),
         s.abnormalities ++ [pvcFinding], "Medium"⟩
       else s) := by
  unfold rule4 pvcFires
  by_cases h1 : 3 < rr.length
  · by_cases h2 : 0 < rr.countP (fun x => decide (4 * popVarQ rr < (x - meanQ rr) ^ 2))
    · by_cases h3 : 10 <
        ((rr.countP (fun x => decide (4 * popVarQ rr < (x - meanQ rr) ^ 2)) : ℚ)
          / rr.length) * 100
      · simp [h1, h2, h3]
      · simp [h1, h2, h3]
    · simp [h1, h2]
  · simp [h1]

theorem rule5_skip (s : ArrState) (h : s.abnormalities ≠ []) : rule5 s = s := by
  unfold rule5
  rw [if_neg h]

theorem detect_arrhythmias_eq (hr : ℚ) (rr : List ℚ) (h2 : 2 ≤ rr.length) :
    detect_arrhythmias hr rr =
      (let s := rule5 (rule4 rr (rule3 rr (rule2 hr rr (rule1 hr arrInit))))
       (s.classification, s.abnormalities, s.risk)) := by
  unfold detect_arrhythmias
  rw [if_neg (by omega)]

theorem pyInStr_normal_afib : pyInStr "Normal" "Atrial Fibrillation (Suspected)" = false := by
  decide

theorem pyInStr_normal_sa : pyInStr "Normal" "Sinus Arrhythmia" = false := by decide

theorem pyInStr_normal_sb : pyInStr "Normal" "Sinus Bradycardia" = false := by decide

theorem pyInStr_normal_vt :
    pyInStr "Normal" "Ventricular Tachycardia (Suspected)" = false := by decide

theorem pyInStr_normal_st : pyInStr "Normal" "Sinus Tachycardia" = false := by decide

theorem rule1_classification (hr : ℚ) (s : ArrState) (h : hr < 60) :
    (rule1 hr s).classification = "Sinus Bradycardia" := by
  unfold rule1
  rw [if_pos h]
  split_ifs <;> rfl

theorem rule2_classification (hr : ℚ) (rr : List ℚ) (s : ArrState)
    (h : ¬ hr < 60 ∧ 100 < hr) :
    (rule2 hr rr s).classification = "Ventricular Tachycardia (Suspected)" ∨
    (rule2 hr rr s).classification = "Sinus Tachycardia" := by
  unfold rule2
  rw [if_pos h]
  split_ifs <;> simp

/-- After rules 1 and 2 the classification is still the default exactly when
the heart rate lies in [60, 100]; otherwise it is one of the bradycardia or
tachycardia labels. -/
theorem rule12_classification (hr : ℚ) (rr : List ℚ) :
    ((60 ≤ hr ∧ hr ≤ 100) ∧
      (rule2 hr rr (rule1 hr arrInit)).classification = "Normal Sinus Rhythm") ∨
    (¬ (60 ≤ hr ∧ hr ≤ 100) ∧
      ((rule2 hr rr (rule1 hr arrInit)).classification = "Sinus Bradycardia" ∨
       (rule2 hr rr (rule1 hr arrInit)).classification =
         "Ventricular Tachycardia (Suspected)" ∨
       (rule2 hr rr (rule1 hr arrInit)).classification = "Sinus Tachycardia")) := by
  by_cases h1 : hr < 60
  · right
    constructor
    · intro hcon
      linarith [hcon.1]
    · left
      rw [rule2_not_fire hr rr _ (fun hcon => hcon.1 h1)]
      exact rule1_classification hr arrInit h1
  · by_cases h2 : 100 < hr
    · right
      constructor
      · intro hcon
        linarith [hcon.2]
      · rcases rule2_classification hr rr (rule1 hr arrInit) ⟨h1, h2⟩ with h | h
        · exact Or.inr (Or.inl h)
        · exact Or.inr (Or.inr h)
    · left
      refine ⟨⟨le_of_not_lt h1, le_of_not_lt h2⟩, ?_⟩
      rw [rule2_not_fire hr rr _ (fun hcon => h2 hcon.2), rule1_not_fire hr _ h1]
      rfl

/-- C3 (amended): when CV > 20 % and more than 30 % of intervals have a
successive difference above 0.12 s, the AFib finding (severity High) is
appended and the classification set to "Atrial Fibrillation (Suspected)";
rule 3 sets the risk to High, but when the PVC rule subsequently fires the
returned risk level is "Medium", not "High".  Otherwise (CV > 20 % only) the
Irregular-Rhythm finding is appended, the returned risk is "Medium", and the
returned classification is "Sinus Arrhythmia" exactly when the heart rate
lies in [60, 100], i.e. when neither bradycardia nor tachycardia renamed the
default first. -/
theorem C3_afib_rule_amended (hr : ℚ) (rr : List ℚ) (h2 : 2 ≤ rr.length)
    (hcv : cvGt rr 20 = true) :
    (afibLargeDiffCond rr = true →
      (detect_arrhythmias hr rr).1 = "Atrial Fibrillation (Suspected)" ∧
      afibFinding ∈ (detect_arrhythmias hr rr).2.1 ∧
      (detect_arrhythmias hr rr).2.2 = (if pvcFires rr then "Medium" else "High")) ∧
    (afibLargeDiffCond rr = false →
      irregularFinding ∈ (detect_arrhythmias hr rr).2.1 ∧
      (detect_arrhythmias hr rr).2.2 = "Medium" ∧
      ((detect_arrhythmias hr rr).1 = "Sinus Arrhythmia" ↔ (60 ≤ hr ∧ hr ≤ 100))) := by
  rw [detect_arrhythmias_eq hr rr h2]
  constructor
  · intro hld
    rw [rule3_afib rr _ hcv hld, rule4_eq]
    by_cases hp : pvcFires rr = true
    · rw [if_pos hp, rule5_skip _ (by simp)]
      refine ⟨?_, ?_, ?_⟩ <;> simp [pyInStr_normal_afib, hp]
    · rw [if_neg hp, rule5_skip _ (by simp)]
      have hp' : pvcFires rr = false := by
        revert hp
        cases pvcFires rr <;> simp
      refine ⟨rfl, by simp, by simp [hp']⟩
  · intro hld
    rw [rule3_irregular rr _ hcv hld, rule4_eq]
    rcases rule12_classification hr rr with ⟨hrange, hcls⟩ | ⟨hrange, hcls⟩
    · rw [if_pos hcls]
      by_cases hp : pvcFires rr = true
      · rw [if_pos hp, rule5_skip _ (by simp)]
        refine ⟨by simp, rfl, ?_⟩
        exact ⟨fun _ => hrange, fun _ => by simp [pyInStr_normal_sa]⟩
      · rw [if_neg hp, rule5_skip _ (by simp)]
        exact ⟨by simp, rfl, ⟨fun _ => hrange, fun _ => rfl⟩⟩
    · have hne : ¬ (rule2 hr rr (rule1 hr arrInit)).classification =
          "Normal Sinus Rhythm" := by
        rcases hcls with h | h | h <;> rw [h] <;> decide
      have hnorm : pyInStr "Normal"
          (rule2 hr rr (rule1 hr arrInit)).classification = false := by
        rcases hcls with h | h | h <;> rw [h]
        · exact pyInStr_normal_sb
        · exact pyInStr_normal_vt
        · exact pyInStr_normal_st
      have hnsa : ¬ (rule2 hr rr (rule1 hr arrInit)).classification =
          "Sinus Arrhythmia" := by
        rcases hcls with h | h | h <;> rw [h] <;> decide
      rw [if_neg hne]
      by_cases hp : pvcFires rr = true
      · rw [if_pos hp, rule5_skip _ (by simp)]
        refine ⟨by simp, rfl, ?_⟩
        rw [hnorm]
        simp only [Bool.false_eq_true, if_false]
        exact ⟨fun h => absurd h hnsa, fun h => absurd h hrange⟩
      · rw [if_neg hp, rule5_skip _ (by simp)]
        exact ⟨by simp, rfl, ⟨fun h => absurd h hnsa, fun h => absurd h hrange⟩⟩

/-- Counterexample to C3 as stated: for the RR sequence
`[0.4, 0.8, 0.4, 0.8, 0.4, 0.8, 0.4, 5.0]` (heart rate `60/mean = 160/3`)
both premises of the AFib branch hold (CV ≈ 131 % > 20 %, 7 of 8 intervals
with successive difference above 0.12 s), yet the returned risk level is
"Medium" — rule 4 (PVC) fires afterwards and overwrites the "High" that rule
3 assigned. -/
theorem C3_counterexample :
    2 ≤ ([2/5, 4/5, 2/5, 4/5, 2/5, 4/5, 2/5, 5] : List ℚ).length ∧
    cvGt [2/5, 4/5, 2/5, 4/5, 2/5, 4/5, 2/5, 5] 20 = true ∧
    afibLargeDiffCond [2/5, 4/5, 2/5, 4/5, 2/5, 4/5, 2/5, 5] = true ∧
    (detect_arrhythmias (160/3) [2/5, 4/5, 2/5, 4/5, 2/5, 4/5, 2/5, 5]).1 =
      "Atrial Fibrillation (Suspected)" ∧
    (detect_arrhythmias (160/3) [2/5, 4/5, 2/5, 4/5, 2/5, 4/5, 2/5, 5]).2.2 = "Medium" ∧
    ("Medium" : String) ≠ "High" := by
  refine ⟨by decide, ?_, ?_, ?_, ?_, by decide⟩
  · with_unfolding_all rfl
  · with_unfolding_all rfl
  · with_unfolding_all rfl
  · with_unfolding_all rfl

/-- Witness for C3 (amended) at the alternating 0.4 s / 0.8 s input, where
the PVC rule does not fire and the returned risk is indeed "High". -/
theorem C3_witness :
    (2 ≤ ([2/5, 4/5, 2/5, 4/5, 2/5, 4/5, 2/5, 4/5] : List ℚ).length ∧
      cvGt [2/5, 4/5, 2/5, 4/5, 2/5, 4/5, 2/5, 4/5] 20 = true ∧
      afibLargeDiffCond [2/5, 4/5, 2/5, 4/5, 2/5, 4/5, 2/5, 4/5] = true) ∧
    ((detect_arrhythmias 100 [2/5, 4/5, 2/5, 4/5, 2/5, 4/5, 2/5, 4/5]).1 =
        "Atrial Fibrillation (Suspected)" ∧
      afibFinding ∈ (detect_arrhythmias 100 [2/5, 4/5, 2/5, 4/5, 2/5, 4/5, 2/5, 4/5]).2.1 ∧
      (detect_arrhythmias 100 [2/5, 4/5, 2/5, 4/5, 2/5, 4/5, 2/5, 4/5]).2.2 =
        (if pvcFires [2/5, 4/5, 2/5, 4/5, 2/5, 4/5, 2/5, 4/5] then "Medium" else "High")) :=
  ⟨⟨by decide, by with_unfolding_all rfl, by with_unfolding_all rfl⟩,
   (C3_afib_rule_amended 100 [2/5, 4/5, 2/5, 4/5, 2/5, 4/5, 2/5, 4/5]
      (by decide) (by with_unfolding_all rfl)).1 (by with_unfolding_all rfl)⟩

theorem rule2_eq (hr : ℚ) (rr : List ℚ) (s : ArrState) :
    rule2 hr rr s =
      (if ¬ hr < 60 ∧ 100 < hr then
        (if 150 < hr then
          (if cvGt rr 15 then
            ⟨"Ventricular Tachycardia (Suspected)", s.abnormalities ++ [vtFinding], "High"⟩
           else ⟨"Sinus Tachycardia", s.abnormalities ++ [tachyFinding "High"], "High"⟩)
         else ⟨"Sinus Tachycardia", s.abnormalities ++ [tachyFinding "Medium"], "Medium"⟩)
       else s) := by
  unfold rule2
  split_ifs <;> simp_all

theorem rule1_risk (hr : ℚ) (s : ArrState) :
    (rule1 hr s).risk = s.risk ∨ (rule1 hr s).risk = "Medium" ∨ (rule1 hr s).risk = "High" := by
  unfold rule1
  split_ifs <;> simp

theorem rule2_risk (hr : ℚ) (rr : List ℚ) (s : ArrState) :
    (rule2 hr rr s).risk = s.risk ∨ (rule2 hr rr s).risk = "Medium" ∨
      (rule2 hr rr s).risk = "High" := by
  rw [rule2_eq]
  split_ifs <;> simp

theorem rule3_eq (rr : List ℚ) (s : ArrState) :
    rule3 rr s =
      (if cvGt rr 20 then
        (if (rr.length : ℚ) * (3/10) <
            ((((diffQ rr).map absQ).countP (fun q => decide (12/100 < q)) : ℕ) : ℚ) then
          ⟨"Atrial Fibrillation (Suspected)", s.abnormalities ++ [afibFinding], "High"⟩
         else
          ⟨(if s.classification = "Normal Sinus Rhythm" then "Sinus Arrhythmia"
            else s.classification),
           s.abnormalities ++ [irregularFinding], "Medium"⟩)
       else s) := rfl

theorem rule3_risk (rr : List ℚ) (s : ArrState) :
    (rule3 rr s).risk = s.risk ∨ (rule3 rr s).risk = "Medium" ∨ (rule3 rr s).risk = "High" := by
  rw [rule3_eq]
  split_ifs <;> simp

theorem rule4_risk (rr : List ℚ) (s : ArrState) :
    (rule4 rr s).risk = s.risk ∨ (rule4 rr s).risk = "Medium" := by
  rw [rule4_eq]
  split_ifs <;> simp

theorem rule5_risk (s : ArrState) :
    (rule5 s).risk = s.risk ∨ (rule5 s).risk = "Low" := by
  unfold rule5
  split_ifs <;> simp

theorem rule1_inv (hr : ℚ) (s : ArrState)
    (hInv : s.risk ≠ "Low" → s.abnormalities ≠ []) :
    (rule1 hr s).risk ≠ "Low" → (rule1 hr s).abnormalities ≠ [] := by
  unfold rule1
  split_ifs <;> simp_all

theorem rule2_inv (hr : ℚ) (rr : List ℚ) (s : ArrState)
    (hInv : s.risk ≠ "Low" → s.abnormalities ≠ []) :
    (rule2 hr rr s).risk ≠ "Low" → (rule2 hr rr s).abnormalities ≠ [] := by
  rw [rule2_eq]
  split_ifs <;> simp_all

theorem rule3_inv (rr : List ℚ) (s : ArrState)
    (hInv : s.risk ≠ "Low" → s.abnormalities ≠ []) :
    (rule3 rr s).risk ≠ "Low" → (rule3 rr s).abnormalities ≠ [] := by
  rw [rule3_eq]
  split_ifs <;> simp_all

theorem rule4_inv (rr : List ℚ) (s : ArrState)
    (hInv : s.risk ≠ "Low" → s.abnormalities ≠ []) :
    (rule4 rr s).risk ≠ "Low" → (rule4 rr s).abnormalities ≠ [] := by
  rw [rule4_eq]
  split_ifs <;> simp_all

theorem rule1_low (hr : ℚ) (s : ArrState) :
    (rule1 hr s).risk = "Low" → s.risk = "Low" := by
  unfold rule1
  split_ifs <;> simp

theorem rule2_low (hr : ℚ) (rr : List ℚ) (s : ArrState) :
    (rule2 hr rr s).risk = "Low" → s.risk = "Low" := by
  rw [rule2_eq]
  split_ifs <;> simp

theorem rule3_low (rr : List ℚ) (s : ArrState) :
    (rule3 rr s).risk = "Low" → s.risk = "Low" := by
  rw [rule3_eq]
  split_ifs <;> simp

theorem rule4_low (rr : List ℚ) (s : ArrState) :
    (rule4 rr s).risk = "Low" → s.risk = "Low" := by
  rw [rule4_eq]
  split_ifs <;> simp

theorem rule5_low (s : ArrState) (hInv : s.risk ≠ "Low" → s.abnormalities ≠ []) :
    (rule5 s).risk = "Low" → s.risk = "Low" := by
  unfold rule5
  split_ifs with h
  · intro _
    by_contra hc
    exact hInv hc h
  · exact id

/-- C2 (amended): across the sequentially evaluated rules the risk level
stays within {Low, Medium, High}, and once a rule has raised it above "Low"
no later rule ever returns it to "Low" — but it is *not* monotonically
raised: a later rule may overwrite "High" with "Medium" (see
`C2_counterexample`), so the final value is last-write-wins. -/
theorem C2_risk_monotonicity_amended (hr : ℚ) (rr : List ℚ) (h2 : 2 ≤ rr.length) :
    (∀ s ∈ arrTrace hr rr, s.risk = "Low" ∨ s.risk = "Medium" ∨ s.risk = "High") ∧
    List.Pairwise (fun s t => t.risk = "Low" → s.risk = "Low") (arrTrace hr rr) := by
  have htr : arrTrace hr rr =
      [arrInit, rule1 hr arrInit, rule2 hr rr (rule1 hr arrInit),
       rule3 rr (rule2 hr rr (rule1 hr arrInit)),
       rule4 rr (rule3 rr (rule2 hr rr (rule1 hr arrInit))),
       rule5 (rule4 rr (rule3 rr (rule2 hr rr (rule1 hr arrInit))))] := rfl
  rw [htr]
  have inv0 : arrInit.risk ≠ "Low" → arrInit.abnormalities ≠ [] := by
    simp [arrInit]
  have inv1 := rule1_inv hr arrInit inv0
  have inv2 := rule2_inv hr rr _ inv1
  have inv3 := rule3_inv rr _ inv2
  have inv4 := rule4_inv rr _ inv3
  have L1 := rule1_low hr arrInit
  have L2 := rule2_low hr rr (rule1 hr arrInit)
  have L3 := rule3_low rr (rule2 hr rr (rule1 hr arrInit))
  have L4 := rule4_low rr (rule3 rr (rule2 hr rr (rule1 hr arrInit)))
  have L5 := rule5_low _ inv4
  have m0 : arrInit.risk = "Low" ∨ arrInit.risk = "Medium" ∨ arrInit.risk = "High" := by
    simp [arrInit]
  have mstep : ∀ s t : ArrState,
      (s.risk = "Low" ∨ s.risk = "Medium" ∨ s.risk = "High") →
      (t.risk = s.risk ∨ t.risk = "Medium" ∨ t.risk = "High") →
      (t.risk = "Low" ∨ t.risk = "Medium" ∨ t.risk = "High") := by
    intro s t hs ht
    rcases ht with h | h | h
    · rw [h]
      exact hs
    · exact Or.inr (Or.inl h)
    · exact Or.inr (Or.inr h)
  have m1 := mstep _ _ m0 (rule1_risk hr arrInit)
  have m2 := mstep _ _ m1 (rule2_risk hr rr _)
  have m3 := mstep _ _ m2 (rule3_risk rr _)
  have m4 := mstep _ _ m3 (by
    rcases rule4_risk rr (rule3 rr (rule2 hr rr (rule1 hr arrInit))) with h | h
    · exact Or.inl h
    · exact Or.inr (Or.inl h))
  constructor
  · intro s hs
    simp only [List.mem_cons, List.not_mem_nil, or_false] at hs
    rcases hs with rfl | rfl | rfl | rfl | rfl | rfl
    · exact m0
    · exact m1
    · exact m2
    · exact m3
    · exact m4
    · rcases rule5_risk (rule4 rr (rule3 rr (rule2 hr rr (rule1 hr arrInit)))) with h | h
      · rw [h]
        exact m4
      · exact Or.inl h
  · have t0 : ∀ t : ArrState, t.risk = "Low" → arrInit.risk = "Low" := by
      intro t _
      rfl
    refine List.Pairwise.cons ?_ (List.Pairwise.cons ?_ (List.Pairwise.cons ?_
      (List.Pairwise.cons ?_ (List.Pairwise.cons ?_ (List.pairwise_singleton _ _)))))
    · intro t ht
      exact t0 t
    · intro t ht h
      simp only [List.mem_cons, List.not_mem_nil, or_false] at ht
      rcases ht with rfl | rfl | rfl | rfl
      · exact L2 h
      · exact L2 (L3 h)
      · exact L2 (L3 (L4 h))
      · exact L2 (L3 (L4 (L5 h)))
    · intro t ht h
      simp only [List.mem_cons, List.not_mem_nil, or_false] at ht
      rcases ht with rfl | rfl | rfl
      · exact L3 h
      · exact L3 (L4 h)
      · exact L3 (L4 (L5 h))
    · intro t ht h
      simp only [List.mem_cons, List.not_mem_nil, or_false] at ht
      rcases ht with rfl | rfl
      · exact L4 h
      · exact L4 (L5 h)
    · intro t ht h
      simp only [List.mem_cons, List.not_mem_nil, or_false] at ht
      rcases ht with rfl
      exact L5 h

/-- Counterexample to C2 as stated: for heart rate 30 BPM and the slow ramp
of RR intervals 1.2 s, 1.3 s, ..., 2.8 s, rule 1 raises the risk to "High"
(severe bradycardia) and rule 3's irregular-rhythm branch later overwrites it
with "Medium" — the risk level is explicitly lowered by a later-firing
rule. -/
theorem C2_counterexample :
    2 ≤ ([6/5, 13/10, 7/5, 3/2, 8/5, 17/10, 9/5, 19/10, 2, 21/10, 11/5, 23/10, 12/5,
          5/2, 13/5, 27/10, 14/5] : List ℚ).length ∧
    ((arrTrace 30 [6/5, 13/10, 7/5, 3/2, 8/5, 17/10, 9/5, 19/10, 2, 21/10, 11/5, 23/10,
        12/5, 5/2, 13/5, 27/10, 14/5]).map (fun s => s.risk)) =
      ["Low", "High", "High", "Medium", "Medium", "Medium"] ∧
    riskRank "Medium" < riskRank "High" := by
  refine ⟨by decide, ?_, by decide⟩
  with_unfolding_all rfl

/-- Witness for C2 (amended) at the same ramp input. -/
theorem C2_witness :
    2 ≤ ([6/5, 13/10, 7/5, 3/2, 8/5, 17/10, 9/5, 19/10, 2, 21/10, 11/5, 23/10, 12/5,
          5/2, 13/5, 27/10, 14/5] : List ℚ).length ∧
    ((∀ s ∈ arrTrace 30 [6/5, 13/10, 7/5, 3/2, 8/5, 17/10, 9/5, 19/10, 2, 21/10, 11/5,
          23/10, 12/5, 5/2, 13/5, 27/10, 14/5],
        s.risk = "Low" ∨ s.risk = "Medium" ∨ s.risk = "High") ∧
      List.Pairwise (fun s t => t.risk = "Low" → s.risk = "Low")
        (arrTrace 30 [6/5, 13/10, 7/5, 3/2, 8/5, 17/10, 9/5, 19/10, 2, 21/10, 11/5,
          23/10, 12/5, 5/2, 13/5, 27/10, 14/5])) :=
  ⟨by decide,
   C2_risk_monotonicity_amended 30
     [6/5, 13/10, 7/5, 3/2, 8/5, 17/10, 9/5, 19/10, 2, 21/10, 11/5, 23/10, 12/5,
      5/2, 13/5, 27/10, 14/5] (by decide)⟩

/-!
Orchestrator-level lemmas: how `analyze` resolves to the success record or
the degraded error record.
-/

theorem analyze_ok (b a zi : List ℚ) (x : List ℚ) (sr : ℚ) (peaks : List ℕ)
    (h : detect_qrs_pan_tompkins b a zi x sr = .ok peaks) :
    analyze b a zi x sr = buildResult (assess_signal_quality x) peaks sr := by
  unfold analyze analyzePipeline
  rw [h]
  rfl

theorem analyze_error (b a zi : List ℚ) (x : List ℚ) (sr : ℚ) (e : String)
    (h : detect_qrs_pan_tompkins b a zi x sr = .error e) :
    analyze b a zi x sr = errorRecord e := by
  unfold analyze analyzePipeline
  rw [h]
  rfl

theorem detect_qrs_cases (b a zi : List ℚ) (x : List ℚ) (sr : ℚ) :
    (∃ e, detect_qrs_pan_tompkins b a zi x sr = .error e) ∨
    (∃ peaks, detect_qrs_pan_tompkins b a zi x sr = .ok peaks) := by
  cases h : detect_qrs_pan_tompkins b a zi x sr
  · exact Or.inl ⟨_, rfl⟩
  · exact Or.inr ⟨_, rfl⟩

/-- The final risk level of `detect_arrhythmias` is always one of Unknown,
Low, Medium, High. -/
theorem detect_risk_cases (hr : ℚ) (rr : List ℚ) :
    (detect_arrhythmias hr rr).2.2 = "Unknown" ∨ (detect_arrhythmias hr rr).2.2 = "Low" ∨
    (detect_arrhythmias hr rr).2.2 = "Medium" ∨ (detect_arrhythmias hr rr).2.2 = "High" := by
  unfold detect_arrhythmias
  split_ifs with h
  · exact Or.inl rfl
  · right
    have m0 : arrInit.risk = "Low" ∨ arrInit.risk = "Medium" ∨ arrInit.risk = "High" := by
      simp [arrInit]
    have mstep : ∀ s t : ArrState,
        (s.risk = "Low" ∨ s.risk = "Medium" ∨ s.risk = "High") →
        (t.risk = s.risk ∨ t.risk = "Medium" ∨ t.risk = "High") →
        (t.risk = "Low" ∨ t.risk = "Medium" ∨ t.risk = "High") := by
      intro s t hs ht
      rcases ht with hh | hh | hh
      · rw [hh]
        exact hs
      · exact Or.inr (Or.inl hh)
      · exact Or.inr (Or.inr hh)
    have m1 := mstep _ _ m0 (rule1_risk hr arrInit)
    have m2 := mstep _ _ m1 (rule2_risk hr rr _)
    have m3 := mstep _ _ m2 (rule3_risk rr _)
    have m4 := mstep _ _ m3 (by
      rcases rule4_risk rr (rule3 rr (rule2 hr rr (rule1 hr arrInit))) with hh | hh
      · exact Or.inl hh
      · exact Or.inr (Or.inl hh))
    rcases rule5_risk (rule4 rr (rule3 rr (rule2 hr rr (rule1 hr arrInit)))) with hh | hh
    · exact mstep _ _ m4 (Or.inl hh)
    · exact Or.inl hh

/-- The urgent-consult advice appears in the recommendation list exactly when
the risk level is "Critical" or "High". -/
theorem urgent_advice_iff (cls risk : String) (hr : ℚ) :
    "⚠️ IMPORTANT: Consult a cardiologist as soon as possible" ∈
        generate_recommendations cls risk hr ↔
      (risk = "Critical" ∨ risk = "High") := by
  by_cases hcond : risk = "Critical" ∨ risk = "High"
  · constructor
    · intro _
      exact hcond
    · intro _
      simp [generate_recommendations, hcond]
  · constructor
    · intro h
      exfalso
      simp only [generate_recommendations, if_neg hcond, List.nil_append,
        List.mem_append] at h
      rcases h with ((h | h) | h) | h <;> split_ifs at h <;> simp_all
    · intro h
      exact absurd h (by tauto)

theorem buildResult_risk (sq : SignalQuality) (peaks : List ℕ) (sr : ℚ) :
    (buildResult sq peaks sr).risk_level =
      (detect_arrhythmias (calculate_heart_rate peaks sr).1
        (calculate_heart_rate peaks sr).2).2.2 := rfl

theorem buildResult_classification (sq : SignalQuality) (peaks : List ℕ) (sr : ℚ) :
    (buildResult sq peaks sr).classification =
      (detect_arrhythmias (calculate_heart_rate peaks sr).1
        (calculate_heart_rate peaks sr).2).1 := rfl

theorem buildResult_confidence (sq : SignalQuality) (peaks : List ℕ) (sr : ℚ) :
    (buildResult sq peaks sr).confidence =
      npRoundQ (confidence_calc sq.quality peaks.length) 3 := rfl

theorem buildResult_recommendations (sq : SignalQuality) (peaks : List ℕ) (sr : ℚ) :
    (buildResult sq peaks sr).recommendations =
      some (generate_recommendations
        (detect_arrhythmias (calculate_heart_rate peaks sr).1
          (calculate_heart_rate peaks sr).2).1
        (detect_arrhythmias (calculate_heart_rate peaks sr).1
          (calculate_heart_rate peaks sr).2).2.2
        (calculate_heart_rate peaks sr).1) := rfl

theorem buildResult_quality (sq : SignalQuality) (peaks : List ℕ) (sr : ℚ) :
    (buildResult sq peaks sr).details.signalQuality = some sq := rfl

theorem buildResult_qrsCount (sq : SignalQuality) (peaks : List ℕ) (sr : ℚ) :
    (buildResult sq peaks sr).details.qrsCount = some peaks.length := rfl

/-- C10: for every input (and every filter-coefficient instantiation), the
risk level of the record returned by `analyze` is one of Low, Medium, High,
Unknown — in particular never "Critical" — and the urgent-consult
recommendation block, though conditioned on "Critical" as well, appears
exactly when the risk level is "High". -/
theorem C10_risk_levels (b a zi : List ℚ) (x : List ℚ) (sr : ℚ) :
    ((analyze b a zi x sr).risk_level = "Low" ∨
     (analyze b a zi x sr).risk_level = "Medium" ∨
     (analyze b a zi x sr).risk_level = "High" ∨
     (analyze b a zi x sr).risk_level = "Unknown") ∧
    (analyze b a zi x sr).risk_level ≠ "Critical" ∧
    ("⚠️ IMPORTANT: Consult a cardiologist as soon as possible" ∈
        (analyze b a zi x sr).recommendations.getD [] ↔
      (analyze b a zi x sr).risk_level = "High") := by
  rcases detect_qrs_cases b a zi x sr with ⟨e, he⟩ | ⟨peaks, hp⟩
  · rw [analyze_error b a zi x sr e he]
    refine ⟨by simp [errorRecord], by simp [errorRecord], ?_⟩
    simp [errorRecord]
  · rw [analyze_ok b a zi x sr peaks hp]
    have hrc := detect_risk_cases (calculate_heart_rate peaks sr).1
      (calculate_heart_rate peaks sr).2
    rw [buildResult_risk]
    refine ⟨by tauto, ?_, ?_⟩
    · rcases hrc with h | h | h | h <;> rw [h] <;> decide
    · rw [buildResult_recommendations]
      simp only [Option.getD_some]
      rw [urgent_advice_iff]
      constructor
      · intro h
        rcases h with h | h
        · rcases hrc with hx | hx | hx | hx <;> rw [hx] at h <;> simp_all
        · exact h
      · intro h
        exact Or.inr h

/-- C4: whenever any step of the pipeline raises (modelled as the pipeline
returning an `Except.error`), `analyze` catches it and returns the degraded
record — classification "Analysis Error", confidence 0, risk "Unknown", the
message embedded in the details, zero abnormalities — instead of propagating
the fault. -/
theorem C4_error_handling (b a zi : List ℚ) (x : List ℚ) (sr : ℚ) (e : String)
    (h : analyzePipeline b a zi x sr = .error e) :
    analyze b a zi x sr = errorRecord e ∧
    (analyze b a zi x sr).classification = "Analysis Error" ∧
    (analyze b a zi x sr).confidence = 0 ∧
    (analyze b a zi x sr).risk_level = "Unknown" ∧
    (analyze b a zi x sr).details.error = some e ∧
    (analyze b a zi x sr).details.abnormalities = [] ∧
    (analyze b a zi x sr).analysis_type = "error" := by
  have ha : analyze b a zi x sr = errorRecord e := by
    unfold analyze
    rw [h]
  rw [ha]
  exact ⟨rfl, rfl, rfl, rfl, rfl, rfl, rfl⟩

/-- Witness for C4: a one-sample trace fails `filtfilt`'s length check and
resolves to the degraded record. -/
theorem C4_witness :
    analyzePipeline [1] [1] [] [1] 250 = .error padlenErrMsg ∧
    analyze [1] [1] [] [1] 250 = errorRecord padlenErrMsg ∧
    (analyze [1] [1] [] [1] 250).classification = "Analysis Error" := by
  have h : analyzePipeline [1] [1] [] [1] 250 = .error padlenErrMsg := by
    with_unfolding_all rfl
  exact ⟨h, (C4_error_handling [1] [1] [] [1] 250 padlenErrMsg h).1,
    (C4_error_handling [1] [1] [] [1] 250 padlenErrMsg h).2.1⟩

/-- C5: the preprocessor fails (with the modelled scipy `ValueError`s)
whenever the sample rate is at most 30 Hz — the 15 Hz cutoff would reach
Nyquist — or the input is not longer than `filtfilt`'s padding
`3 * max(len(a), len(b))` (15 samples for the deployed 5-coefficient
band-pass). -/
theorem C5_preprocess_error (b a zi : List ℚ) (x : List ℚ) (sr : ℚ)
    (h : sr ≤ 30 ∨ x.length ≤ 3 * max a.length b.length) :
    ∃ e, preprocess b a zi x sr = .error e := by
  unfold preprocess
  rcases h with h | h
  · rw [if_pos]
    · exact ⟨_, rfl⟩
    · by_cases hs : 0 < sr
      · right
        rw [le_div_iff₀ (by linarith)]
        linarith
      · left
        have h2 : sr / 2 ≤ 0 := by linarith
        rcases h2.lt_or_eq with hlt | heq
        · exact le_of_lt (div_neg_of_pos_of_neg (by norm_num) hlt)
        · rw [heq, div_zero]
  · by_cases hc : 5 / (sr / 2) ≤ 0 ∨ 1 ≤ 15 / (sr / 2)
    · rw [if_pos hc]
      exact ⟨_, rfl⟩
    · rw [if_neg hc, if_pos h]
      exact ⟨_, rfl⟩

/-- Witness for C5 at the Nyquist boundary `sample_rate = 30`. -/
theorem C5_witness :
    ((30 : ℚ) ≤ 30 ∨ (List.replicate 20 (1 : ℚ)).length ≤ 3 * max 1 1) ∧
    (∃ e, preprocess [1] [1] [] (List.replicate 20 (1 : ℚ)) 30 = .error e) :=
  ⟨Or.inl le_rfl,
   C5_preprocess_error [1] [1] [] (List.replicate 20 (1 : ℚ)) 30 (Or.inl le_rfl)⟩

theorem npRoundQ_half : npRoundQ (1/2) 3 = 1/2 := by
  have h := npRoundQ_exact (500 : ℤ) 3
  norm_num at h ⊢
  exact h

theorem npRoundQ_conf_good (k : ℕ) :
    npRoundQ (85/100 + (min (k : ℚ) 50)/50 * (15/100)) 3 =
      85/100 + (min (k : ℚ) 50)/50 * (15/100) := by
  have hval : 85/100 + (min (k : ℚ) 50)/50 * (15/100) =
      (((850 + 3 * min k 50 : ℕ) : ℤ) : ℚ) / 10 ^ 3 := by
    push_cast
    ring
  rw [hval, npRoundQ_exact]

theorem npRoundQ_conf_fair (k : ℕ) :
    npRoundQ (65/100 + (min (k : ℚ) 50)/50 * (20/100)) 3 =
      65/100 + (min (k : ℚ) 50)/50 * (20/100) := by
  have hval : 65/100 + (min (k : ℚ) 50)/50 * (20/100) =
      (((650 + 4 * min k 50 : ℕ) : ℤ) : ℚ) / 10 ^ 3 := by
    push_cast
    ring
  rw [hval, npRoundQ_exact]

/-- The confidence computation after the display rounding, exactly as the
spec states it: the Good formula with its `[0.85, 1]` range, the Fair formula
with its `[0.65, 0.85]` range, flat 0.5 otherwise. -/
theorem confidence_calc_spec (qs : String) (k : ℕ) :
    (qs = "Good" ∧ 10 < k →
      npRoundQ (confidence_calc qs k) 3 = 85/100 + (min (k : ℚ) 50)/50 * (15/100) ∧
      85/100 ≤ npRoundQ (confidence_calc qs k) 3 ∧ npRoundQ (confidence_calc qs k) 3 ≤ 1) ∧
    (¬(qs = "Good" ∧ 10 < k) → qs = "Fair" ∧ 5 < k →
      npRoundQ (confidence_calc qs k) 3 = 65/100 + (min (k : ℚ) 50)/50 * (20/100) ∧
      65/100 ≤ npRoundQ (confidence_calc qs k) 3 ∧
      npRoundQ (confidence_calc qs k) 3 ≤ 85/100) ∧
    (¬(qs = "Good" ∧ 10 < k) → ¬(qs = "Fair" ∧ 5 < k) →
      npRoundQ (confidence_calc qs k) 3 = 1/2) := by
  have hm0 : (0 : ℚ) ≤ min (k : ℚ) 50 := le_min (by positivity) (by norm_num)
  have hm50 : min (k : ℚ) 50 ≤ 50 := min_le_right _ _
  refine ⟨?_, ?_, ?_⟩
  · intro hg
    unfold confidence_calc
    rw [if_pos hg, npRoundQ_conf_good]
    refine ⟨rfl, by linarith, by linarith⟩
  · intro hng hf
    unfold confidence_calc
    rw [if_neg hng, if_pos hf, npRoundQ_conf_fair]
    refine ⟨rfl, by linarith, by linarith⟩
  · intro hng hnf
    unfold confidence_calc
    rw [if_neg hng, if_neg hnf]
    exact npRoundQ_half

/-- C7: on every successful analysis, the returned confidence is the rounded
value of the source's inline computation, which equals
`0.85 + min(peaks,50)/50*0.15 ∈ [0.85, 1]` for Good quality with more than 10
peaks, `0.65 + min(peaks,50)/50*0.20 ∈ [0.65, 0.85]` for Fair quality with
more than 5 peaks, and `0.50` in every other case (the display rounding to 3
decimals is the identity on all these values). -/
theorem C7_confidence (b a zi : List ℚ) (x : List ℚ) (sr : ℚ) (peaks : List ℕ)
    (q : SignalQuality) (k : ℕ)
    (hp : detect_qrs_pan_tompkins b a zi x sr = .ok peaks)
    (hq : (analyze b a zi x sr).details.signalQuality = some q)
    (hk : (analyze b a zi x sr).details.qrsCount = some k) :
    (q.quality = "Good" ∧ 10 < k →
      (analyze b a zi x sr).confidence = 85/100 + (min (k : ℚ) 50)/50 * (15/100) ∧
      85/100 ≤ (analyze b a zi x sr).confidence ∧ (analyze b a zi x sr).confidence ≤ 1) ∧
    (¬(q.quality = "Good" ∧ 10 < k) → q.quality = "Fair" ∧ 5 < k →
      (analyze b a zi x sr).confidence = 65/100 + (min (k : ℚ) 50)/50 * (20/100) ∧
      65/100 ≤ (analyze b a zi x sr).confidence ∧
      (analyze b a zi x sr).confidence ≤ 85/100) ∧
    (¬(q.quality = "Good" ∧ 10 < k) → ¬(q.quality = "Fair" ∧ 5 < k) →
      (analyze b a zi x sr).confidence = 1/2) := by
  have ha := analyze_ok b a zi x sr peaks hp
  rw [ha] at hq hk ⊢
  rw [buildResult_quality] at hq
  rw [buildResult_qrsCount] at hk
  have hq' : q = assess_signal_quality x := (Option.some.inj hq).symm
  have hk' : k = peaks.length := (Option.some.inj hk).symm
  subst hq' hk'
  rw [buildResult_confidence]
  exact confidence_calc_spec (assess_signal_quality x).quality peaks.length

set_option maxRecDepth 1000000 in
/-- Witness for C7: a concrete two-impulse trace at 40 Hz takes the success
path with Poor quality and 2 peaks, so the flat 0.50 branch applies. -/
theorem C7_witness :
    detect_qrs_pan_tompkins [1] [1] [] [0,0,0,0,0,10,0,0,0,0,0,0,0,0,0,10,0,0,0,0] 40 =
      .ok [5, 15] ∧
    (assess_signal_quality [0,0,0,0,0,10,0,0,0,0,0,0,0,0,0,10,0,0,0,0]).quality = "Poor" ∧
    (analyze [1] [1] [] [0,0,0,0,0,10,0,0,0,0,0,0,0,0,0,10,0,0,0,0] 40).confidence = 1/2 := by
  have hp : detect_qrs_pan_tompkins [1] [1] []
      [0,0,0,0,0,10,0,0,0,0,0,0,0,0,0,10,0,0,0,0] 40 = .ok [5, 15] := by
    with_unfolding_all rfl
  have hqual : (assess_signal_quality
      [0,0,0,0,0,10,0,0,0,0,0,0,0,0,0,10,0,0,0,0]).quality = "Poor" := by
    with_unfolding_all rfl
  have hq : (analyze [1] [1] [] [0,0,0,0,0,10,0,0,0,0,0,0,0,0,0,10,0,0,0,0]
        40).details.signalQuality =
      some (assess_signal_quality [0,0,0,0,0,10,0,0,0,0,0,0,0,0,0,10,0,0,0,0]) := by
    rw [analyze_ok _ _ _ _ _ _ hp, buildResult_quality]
  have hk : (analyze [1] [1] [] [0,0,0,0,0,10,0,0,0,0,0,0,0,0,0,10,0,0,0,0]
        40).details.qrsCount = some 2 := by
    rw [analyze_ok _ _ _ _ _ _ hp, buildResult_qrsCount]
    rfl
  refine ⟨hp, hqual, ?_⟩
  exact (C7_confidence [1] [1] [] [0,0,0,0,0,10,0,0,0,0,0,0,0,0,0,10,0,0,0,0] 40 [5, 15]
      (assess_signal_quality [0,0,0,0,0,10,0,0,0,0,0,0,0,0,0,10,0,0,0,0]) 2 hp hq hk).2.2
    (by simp [hqual]) (by simp [hqual])

/-- C8 (amended): for at least 2 intervals the HRV metrics equal the spec's
formulas — population standard deviation in ms, root mean square of first
differences, percentage of successive differences above 50 ms — each passed
through numpy's round-half-to-even at 2 decimals (which the claim omits);
with fewer than 2 intervals all three are exactly 0. -/
theorem C8_hrv_amended (rr : List ℚ) :
    (2 ≤ rr.length →
      calculate_hrv rr = ⟨npRoundR (specSDNN rr) 2, npRoundR (specRMSSD rr) 2,
        npRoundQ (specPNN50 rr) 2⟩) ∧
    (rr.length < 2 → calculate_hrv rr = ⟨0, 0, 0⟩) := by
  constructor
  · intro h2
    have hd : 0 < (diffQ (rr.map (fun v => v * 1000))).length := by
      unfold diffQ
      rw [List.length_zipWith, List.length_tail, List.length_map]
      omega
    have key : calculate_hrv rr =
        { SDNN := npRoundR (Real.sqrt (popVarQ (rr.map (fun v => v * 1000)))) 2
          RMSSD := npRoundR (Real.sqrt
            (((((diffQ (rr.map (fun v => v * 1000))).map (fun v => v ^ 2)).sum)
              / (diffQ (rr.map (fun v => v * 1000))).length : ℚ))) 2
          pNN50 := npRoundQ (if 0 < (diffQ (rr.map (fun v => v * 1000))).length then
              (((diffQ (rr.map (fun v => v * 1000))).countP
                (fun q => decide (50 < absQ q)) : ℕ) : ℚ)
                / (diffQ (rr.map (fun v => v * 1000))).length * 100
            else 0) 2 } := by
      unfold calculate_hrv
      rw [if_neg (by omega)]
    rw [key, if_pos hd]
    rfl
  · intro h1
    unfold calculate_hrv
    rw [if_pos h1]

set_option maxRecDepth 200000 in
/-- Counterexample to C8 as stated: for RR intervals
`[1, 1.06, 1.06, 1.06]` the source's pNN50 is `round(100/3, 2) = 33.33`,
which is not the spec's exact percentage `100/3`. -/
theorem C8_counterexample :
    (calculate_hrv [1, 53/50, 53/50, 53/50]).pNN50 = 3333/100 ∧
    specPNN50 [1, 53/50, 53/50, 53/50] = 100/3 ∧
    (3333/100 : ℚ) ≠ 100/3 := by
  refine ⟨?_, ?_, by norm_num⟩
  · with_unfolding_all rfl
  · with_unfolding_all rfl

set_option maxRecDepth 200000 in
/-- Witness for C8 (amended) at the concrete intervals `[1 s, 2 s]`. -/
theorem C8_witness :
    2 ≤ ([1, 2] : List ℚ).length ∧
    calculate_hrv [1, 2] = ⟨npRoundR (specSDNN [1, 2]) 2, npRoundR (specRMSSD [1, 2]) 2,
      npRoundQ (specPNN50 [1, 2]) 2⟩ ∧
    (calculate_hrv [1, 2]).pNN50 = 100 :=
  ⟨by decide, (C8_hrv_amended [1, 2]).1 (by decide), by with_unfolding_all rfl⟩

/-!
Correctness of the peak selection (claim C6): the keep mask returned by
`selectByDist` never retains two peaks closer than the distance, and the
local-maxima scan produces strictly increasing indices.
-/

theorem mapRange_getD (m : ℕ) (f : ℕ → Bool) (k : ℕ) :
    ((List.range m).map f).getD k false = if k < m then f k else false := by
  rw [List.getD_eq_getElem?_getD, List.getElem?_map]
  by_cases h : k < m
  · rw [if_pos h, List.getElem?_eq_getElem (by simpa using h)]
    simp
  · rw [if_neg h, List.getElem?_eq_none (by simpa using le_of_not_lt h)]
    rfl

theorem mem_insertIdx_sort (key : ℕ → ℚ) (i x : ℕ) :
    ∀ l : List ℕ, x ∈ insertIdx key i l ↔ x = i ∨ x ∈ l := by
  intro l
  induction l with
  | nil => simp [insertIdx]
  | cons j t ih =>
    unfold insertIdx
    split_ifs with h
    · simp [List.mem_cons]
    · simp [List.mem_cons, ih]
      tauto

theorem mem_sortIdx (key : ℕ → ℚ) (x : ℕ) :
    ∀ l : List ℕ, x ∈ sortIdx key l ↔ x ∈ l := by
  intro l
  induction l with
  | nil => simp [sortIdx]
  | cons j t ih =>
    unfold sortIdx
    rw [mem_insertIdx_sort]
    simp [List.mem_cons, ih]

theorem pruneStep_inv (peaks : List ℕ) (d : ℕ) (keep : List Bool) (j : ℕ) (rem : List ℕ)
    (hInv : ∀ k1 k2 : ℕ, k1 ≠ k2 → keep.getD k1 false = true → keep.getD k2 false = true →
      ((peaks.getD k1 0 : ℤ) - (peaks.getD k2 0 : ℤ)).natAbs < d →
      (k1 ∈ j :: rem ∨ k2 ∈ j :: rem)) :
    ∀ k1 k2 : ℕ, k1 ≠ k2 → (pruneStep peaks d keep j).getD k1 false = true →
      (pruneStep peaks d keep j).getD k2 false = true →
      ((peaks.getD k1 0 : ℤ) - (peaks.getD k2 0 : ℤ)).natAbs < d →
      (k1 ∈ rem ∨ k2 ∈ rem) := by
  intro k1 k2 hne h1 h2 hgap
  unfold pruneStep at h1 h2
  by_cases hj : keep.getD j false = true
  · rw [if_pos hj, mapRange_getD] at h1 h2
    rcases Nat.lt_or_ge k1 keep.length with hl1 | hl1
    swap
    · rw [if_neg (not_lt.2 hl1)] at h1
      exact absurd h1 (by simp)
    rcases Nat.lt_or_ge k2 keep.length with hl2 | hl2
    swap
    · rw [if_neg (not_lt.2 hl2)] at h2
      exact absurd h2 (by simp)
    rw [if_pos hl1] at h1
    rw [if_pos hl2] at h2
    simp only [Bool.and_eq_true, Bool.or_eq_true, beq_iff_eq, decide_eq_true_eq] at h1 h2
    rcases h1 with ⟨hk1, hc1⟩
    rcases h2 with ⟨hk2, hc2⟩
    rcases hc1 with rfl | hd1
    · rcases hc2 with h2j | hd2
      · exact absurd h2j (Ne.symm hne)
      · exfalso
        omega
    · rcases hc2 with rfl | hd2
      · exfalso
        omega
      · rcases hInv k1 k2 hne hk1 hk2 hgap with hm | hm
        · rcases List.mem_cons.1 hm with rfl | hm'
          · exfalso
            omega
          · exact Or.inl hm'
        · rcases List.mem_cons.1 hm with rfl | hm'
          · exfalso
            omega
          · exact Or.inr hm'
  · rw [if_neg hj] at h1 h2
    rcases hInv k1 k2 hne h1 h2 hgap with hm | hm
    · rcases List.mem_cons.1 hm with rfl | hm'
      · exact absurd h1 hj
      · exact Or.inl hm'
    · rcases List.mem_cons.1 hm with rfl | hm'
      · exact absurd h2 hj
      · exact Or.inr hm'

theorem foldl_prune_inv (peaks : List ℕ) (d : ℕ) :
    ∀ (rem : List ℕ) (keep : List Bool),
      (∀ k1 k2 : ℕ, k1 ≠ k2 → keep.getD k1 false = true → keep.getD k2 false = true →
        ((peaks.getD k1 0 : ℤ) - (peaks.getD k2 0 : ℤ)).natAbs < d →
        (k1 ∈ rem ∨ k2 ∈ rem)) →
      ∀ k1 k2 : ℕ, k1 ≠ k2 →
        (rem.foldl (pruneStep peaks d) keep).getD k1 false = true →
        (rem.foldl (pruneStep peaks d) keep).getD k2 false = true →
        ¬ ((peaks.getD k1 0 : ℤ) - (peaks.getD k2 0 : ℤ)).natAbs < d := by
  intro rem
  induction rem with
  | nil =>
    intro keep hInv k1 k2 hne h1 h2 hgap
    rcases hInv k1 k2 hne h1 h2 hgap with h | h <;> simp at h
  | cons j rest ih =>
    intro keep hInv k1 k2 hne h1 h2 hgap
    exact ih (pruneStep peaks d keep j) (pruneStep_inv peaks d keep j rest hInv)
      k1 k2 hne h1 h2 hgap

theorem selectByDist_spec (peaks : List ℕ) (pri : List ℚ) (d : ℕ) (k1 k2 : ℕ)
    (hne : k1 ≠ k2)
    (h1 : (selectByDist peaks pri d).getD k1 false = true)
    (h2 : (selectByDist peaks pri d).getD k2 false = true) :
    d ≤ ((peaks.getD k1 0 : ℤ) - (peaks.getD k2 0 : ℤ)).natAbs := by
  by_contra hgap
  rw [not_le] at hgap
  unfold selectByDist at h1 h2
  refine foldl_prune_inv peaks d _ _ ?_ k1 k2 hne h1 h2 hgap
  intro u v huv hu hv hg
  left
  have hu' : u < peaks.length := by
    by_contra hc
    rw [List.getD_eq_getElem?_getD,
      List.getElem?_eq_none (by simpa using le_of_not_lt hc)] at hu
    exact absurd hu (by simp)
  rw [List.mem_reverse, mem_sortIdx]
  exact List.mem_range.2 hu'

theorem plateauEnd_ge (x : List ℚ) (v : ℚ) :
    ∀ fuel j : ℕ, j ≤ plateauEnd x v fuel j := by
  intro fuel
  induction fuel with
  | zero =>
    intro j
    exact le_refl j
  | succ f ih =>
    intro j
    unfold plateauEnd
    split_ifs with h1 h2
    · exact le_trans (Nat.le_succ j) (ih (j + 1))
    · exact le_refl j
    · exact le_refl j

theorem lmAux_ge (x : List ℚ) :
    ∀ fuel i : ℕ, ∀ p ∈ lmAux x fuel i, i ≤ p := by
  intro fuel
  induction fuel with
  | zero =>
    intro i p hp
    simp [lmAux] at hp
  | succ f ih =>
    intro i p hp
    unfold lmAux at hp
    split_ifs at hp with h1 h2 h3
    · have he := plateauEnd_ge x (x.getD i 0) x.length (i + 1)
      rcases List.mem_cons.1 hp with rfl | hp'
      · omega
      · have := ih (plateauEnd x (x.getD i 0) x.length (i + 1) + 1) p hp'
        omega
    · exact le_trans (Nat.le_succ i) (ih (i + 1) p hp)
    · exact le_trans (Nat.le_succ i) (ih (i + 1) p hp)
    · simp at hp

theorem lmAux_pairwise (x : List ℚ) :
    ∀ fuel i : ℕ, List.Pairwise (· < ·) (lmAux x fuel i) := by
  intro fuel
  induction fuel with
  | zero =>
    intro i
    simp [lmAux]
  | succ f ih =>
    intro i
    unfold lmAux
    split_ifs with h1 h2 h3
    · refine List.Pairwise.cons ?_ (ih _)
      intro p hp
      have hge := lmAux_ge x f (plateauEnd x (x.getD i 0) x.length (i + 1) + 1) p hp
      have he := plateauEnd_ge x (x.getD i 0) x.length (i + 1)
      omega
    · exact ih _
    · exact ih _
    · exact List.Pairwise.nil

theorem localMaxima_pairwise (x : List ℚ) :
    List.Pairwise (· < ·) (localMaxima x) := lmAux_pairwise x x.length 1

theorem findPeaksHD_eq (x : List ℚ) (h : ℚ) (d : ℕ) :
    findPeaksHD x h d =
      ((List.range ((localMaxima x).filter (fun p => decide (h ≤ x.getD p 0))).length).filter
        (fun k => (selectByDist ((localMaxima x).filter (fun p => decide (h ≤ x.getD p 0)))
          (((localMaxima x).filter (fun p => decide (h ≤ x.getD p 0))).map
            (fun p => x.getD p 0)) d).getD k false)).map
        (fun k => ((localMaxima x).filter (fun p => decide (h ≤ x.getD p 0))).getD k 0) := rfl

theorem findPeaksHD_pairwise (x : List ℚ) (h : ℚ) (d : ℕ) :
    List.Pairwise (fun p q => p < q ∧ p + d ≤ q) (findPeaksHD x h d) := by
  rw [findPeaksHD_eq, List.pairwise_map]
  have hsorted : List.Pairwise (· < ·)
      ((localMaxima x).filter (fun p => decide (h ≤ x.getD p 0))) :=
    (localMaxima_pairwise x).filter _
  have hmono : ∀ k1 k2 : ℕ, k1 < k2 →
      k2 < ((localMaxima x).filter (fun p => decide (h ≤ x.getD p 0))).length →
      ((localMaxima x).filter (fun p => decide (h ≤ x.getD p 0))).getD k1 0 <
        ((localMaxima x).filter (fun p => decide (h ≤ x.getD p 0))).getD k2 0 := by
    intro k1 k2 hlt hk2
    have hk1 : k1 < ((localMaxima x).filter (fun p => decide (h ≤ x.getD p 0))).length :=
      lt_trans hlt hk2
    rw [List.getD_eq_getElem?_getD, List.getElem?_eq_getElem hk1,
      List.getD_eq_getElem?_getD, List.getElem?_eq_getElem hk2]
    exact List.pairwise_iff_getElem.1 hsorted k1 k2 hk1 hk2 hlt
  refine List.Pairwise.imp_of_mem ?_
    ((List.pairwise_lt_range _).filter
      (fun k => (selectByDist _ _ d).getD k false))
  intro u v hu hv huv
  have humem := List.mem_filter.1 hu
  have hvmem := List.mem_filter.1 hv
  have hu' := List.mem_range.1 humem.1
  have hv' := List.mem_range.1 hvmem.1
  have hku : (selectByDist ((localMaxima x).filter (fun p => decide (h ≤ x.getD p 0)))
      (((localMaxima x).filter (fun p => decide (h ≤ x.getD p 0))).map
        (fun p => x.getD p 0)) d).getD u false = true := humem.2
  have hkv : (selectByDist ((localMaxima x).filter (fun p => decide (h ≤ x.getD p 0)))
      (((localMaxima x).filter (fun p => decide (h ≤ x.getD p 0))).map
        (fun p => x.getD p 0)) d).getD v false = true := hvmem.2
  have hgap := selectByDist_spec
    ((localMaxima x).filter (fun p => decide (h ≤ x.getD p 0)))
    (((localMaxima x).filter (fun p => decide (h ≤ x.getD p 0))).map (fun p => x.getD p 0))
    d u v (Nat.ne_of_lt huv) hku hkv
  have hvlt := hmono u v huv hv'
  exact ⟨hvlt, by omega⟩

/-- C6: every R-peak list produced by the QRS detector is strictly increasing
and, pairwise, no two peaks are closer than the detector's refractory
distance `int(0.2 * sample_rate)` samples. -/
theorem C6_peak_spacing (b a zi : List ℚ) (x : List ℚ) (sr : ℚ) (peaks : List ℕ)
    (h : detect_qrs_pan_tompkins b a zi x sr = .ok peaks) :
    List.Pairwise (fun p q => p < q ∧ p + pyIntFloor (1/5 * sr) ≤ q) peaks := by
  unfold detect_qrs_pan_tompkins at h
  cases hp : preprocess b a zi x sr with
  | error e =>
    rw [hp] at h
    exact absurd h (by simp [Except.bind])
  | ok filtered =>
    rw [hp] at h
    simp only [Except.bind, Except.ok.injEq] at h
    rw [← h]
    exact findPeaksHD_pairwise _ _ _

set_option maxRecDepth 1000000 in
/-- Witness for C6: the two-impulse trace at 40 Hz yields peaks `[5, 15]`,
strictly increasing and 10 ≥ `int(0.2*40) = 8` samples apart. -/
theorem C6_witness :
    detect_qrs_pan_tompkins [1] [1] [] [0,0,0,0,0,10,0,0,0,0,0,0,0,0,0,10,0,0,0,0] 40 =
      .ok [5, 15] ∧
    List.Pairwise (fun p q => p < q ∧ p + pyIntFloor (1/5 * 40) ≤ q) [5, 15] := by
  have h : detect_qrs_pan_tompkins [1] [1] []
      [0,0,0,0,0,10,0,0,0,0,0,0,0,0,0,10,0,0,0,0] 40 = .ok [5, 15] := by
    with_unfolding_all rfl
  exact ⟨h, C6_peak_spacing [1] [1] [] [0,0,0,0,0,10,0,0,0,0,0,0,0,0,0,10,0,0,0,0]
    40 [5, 15] h⟩

/-!
The flat-signal path (claim C1): a constant trace is zero after mean
removal, stays zero through `filtfilt`, differencing, squaring and
integration, and therefore produces no peaks, so the analysis lands on the
insufficient-data classification with Poor quality and confidence 0.50.
-/

theorem allZero_getD (l : List ℚ) (h : AllZero l) (k : ℕ) : l.getD k 0 = 0 := by
  rw [List.getD_eq_getElem?_getD]
  cases hk : l[k]? with
  | none => rfl
  | some v =>
    obtain ⟨hlt, hv⟩ := List.getElem?_eq_some_iff.1 hk
    have hmem : v ∈ l := hv ▸ List.getElem_mem hlt
    simp [h v hmem]

theorem allZero_headD (l : List ℚ) (h : AllZero l) : l.headD 0 = 0 := by
  cases l with
  | nil => rfl
  | cons a t => exact h a (List.mem_cons_self a t)

theorem allZero_getLastD_gen : ∀ (l : List ℚ) (d : ℚ), AllZero l → d = 0 → l.getLastD d = 0 := by
  intro l
  induction l with
  | nil => intro d _ hd; exact hd
  | cons a t ih =>
    intro d h _
    rw [List.getLastD_cons]
    exact ih a (fun q hq => h q (List.mem_cons_of_mem a hq)) (h a (List.mem_cons_self a t))

theorem allZero_getLastD (l : List ℚ) (h : AllZero l) : l.getLastD 0 = 0 :=
  allZero_getLastD_gen l 0 h rfl

theorem allZero_replicate (n : ℕ) : AllZero (List.replicate n (0 : ℚ)) :=
  fun _ hq => List.eq_of_mem_replicate hq

theorem allZero_reverse (l : List ℚ) (h : AllZero l) : AllZero l.reverse :=
  fun q hq => h q (List.mem_reverse.1 hq)

theorem oddExt_allZero (x : List ℚ) (p : ℕ) (h : AllZero x) : AllZero (oddExt x p) := by
  intro q hq
  unfold oddExt at hq
  rcases List.mem_append.1 hq with hq1 | hqr
  · rcases List.mem_append.1 hq1 with hql | hqm
    · rcases List.mem_map.1 hql with ⟨i, _, rfl⟩
      rw [allZero_headD x h, allZero_getD x h]
      ring
    · exact h q hqm
  · rcases List.mem_map.1 hqr with ⟨i, _, rfl⟩
    rw [allZero_getLastD x h, allZero_getD x h]
    ring

theorem oddExt_length (x : List ℚ) (p : ℕ) : (oddExt x p).length = x.length + 2 * p := by
  unfold oddExt
  simp only [List.length_append, List.length_map, List.length_range]
  omega

theorem lfilterGo_zero (bn an : List ℚ) :
    ∀ (xs z : List ℚ), AllZero z → AllZero xs →
      lfilterGo bn an z xs = List.replicate xs.length 0 := by
  intro xs
  induction xs with
  | nil =>
    intro z _ _
    rfl
  | cons xn rest ih =>
    intro z hz hx
    have hxn : xn = 0 := hx xn (List.mem_cons_self _ _)
    have hy : bn.headD 0 * xn + z.headD 0 = 0 := by
      rw [hxn, allZero_headD z hz]
      ring
    show (bn.headD 0 * xn + z.headD 0) :: _ = _
    rw [List.length_cons, List.replicate_succ, hy]
    congr 1
    apply ih
    · intro q hq
      rcases List.mem_map.1 hq with ⟨i, _, rfl⟩
      rw [hxn, allZero_getD z hz]
      ring
    · exact fun q hq => hx q (List.mem_cons_of_mem _ hq)

theorem lfilter_zero (b a zi xs : List ℚ) (hzi : AllZero zi) (hx : AllZero xs) :
    lfilter b a zi xs = List.replicate xs.length 0 := by
  unfold lfilter
  apply lfilterGo_zero
  · intro q hq
    rcases List.mem_map.1 hq with ⟨i, _, rfl⟩
    exact allZero_getD zi hzi i
  · exact hx

theorem filtfiltForward_zero (b a zi ext : List ℚ) (hext : AllZero ext) :
    filtfiltForward b a zi ext = List.replicate ext.length 0 := by
  unfold filtfiltForward
  apply lfilter_zero
  · intro q hq
    rcases List.mem_map.1 hq with ⟨z, _, rfl⟩
    rw [allZero_headD ext hext]
    ring
  · exact hext

theorem filtfiltBackward_zero (b a zi y1 : List ℚ) (h : AllZero y1) :
    filtfiltBackward b a zi y1 = List.replicate y1.length 0 := by
  unfold filtfiltBackward
  rw [lfilter_zero b a (zi.map (· * y1.getLastD 0)) y1.reverse ?_ (allZero_reverse y1 h)]
  · rw [List.length_reverse, List.reverse_replicate]
  · intro q hq
    rcases List.mem_map.1 hq with ⟨z, _, rfl⟩
    rw [allZero_getLastD y1 h]
    ring

theorem filtfilt_zero (b a zi x : List ℚ) (hx : AllZero x) :
    filtfilt b a zi x = List.replicate x.length 0 := by
  unfold filtfilt
  rw [filtfiltForward_zero b a zi _ (oddExt_allZero x _ hx)]
  rw [filtfiltBackward_zero b a zi _ (allZero_replicate _)]
  rw [List.length_replicate, List.drop_replicate, List.take_replicate]
  have hlen := oddExt_length x (3 * max a.length b.length)
  congr 1
  omega

theorem meanQ_replicate (n : ℕ) (c : ℚ) (hn : n ≠ 0) :
    meanQ (List.replicate n c) = c := by
  unfold meanQ
  rw [List.sum_replicate, List.length_replicate, nsmul_eq_mul]
  exact mul_div_cancel_left₀ c (Nat.cast_ne_zero.2 hn)

theorem sub_mean_replicate (n : ℕ) (c : ℚ) (hn : n ≠ 0) :
    (List.replicate n c).map (fun v => v - meanQ (List.replicate n c)) =
      List.replicate n 0 := by
  rw [meanQ_replicate n c hn, List.map_replicate]
  simp

theorem popVarQ_replicate (n : ℕ) (c : ℚ) (hn : n ≠ 0) :
    popVarQ (List.replicate n c) = 0 := by
  unfold popVarQ
  rw [meanQ_replicate n c hn, List.map_replicate]
  simp

theorem foldl_max_const : ∀ (n : ℕ) (c : ℚ), List.foldl max c (List.replicate n c) = c := by
  intro n
  induction n with
  | zero =>
    intro c
    rfl
  | succ m ih =>
    intro c
    rw [List.replicate_succ, List.foldl_cons, max_self]
    exact ih c

theorem foldl_min_const : ∀ (n : ℕ) (c : ℚ), List.foldl min c (List.replicate n c) = c := by
  intro n
  induction n with
  | zero =>
    intro c
    rfl
  | succ m ih =>
    intro c
    rw [List.replicate_succ, List.foldl_cons, min_self]
    exact ih c

theorem listMaxQ_replicate (n : ℕ) (c : ℚ) (hn : n ≠ 0) :
    listMaxQ (List.replicate n c) = c := by
  unfold listMaxQ
  cases n with
  | zero => omega
  | succ m =>
    rw [List.replicate_succ, List.headD_cons, List.foldl_cons, max_self]
    exact foldl_max_const m c

theorem listMinQ_replicate (n : ℕ) (c : ℚ) (hn : n ≠ 0) :
    listMinQ (List.replicate n c) = c := by
  unfold listMinQ
  cases n with
  | zero => omega
  | succ m =>
    rw [List.replicate_succ, List.headD_cons, List.foldl_cons, min_self]
    exact foldl_min_const m c

theorem npRoundQ_zero (d : ℕ) : npRoundQ 0 d = 0 := by
  unfold npRoundQ
  rw [zero_mul, show (0 : ℚ) = ((0 : ℤ) : ℚ) by norm_num, roundHalfEvenQ_intCast]
  norm_num

theorem roundHalfEvenR_zero : roundHalfEvenR 0 = 0 := by
  unfold roundHalfEvenR
  norm_num

theorem npRoundR_zero (d : ℕ) : npRoundR 0 d = 0 := by
  unfold npRoundR
  rw [zero_mul, roundHalfEvenR_zero]
  norm_num

theorem assess_flat (n : ℕ) (c : ℚ) (hn : n ≠ 0) :
    assess_signal_quality (List.replicate n c) = ⟨"Poor", 3/10, 0, 0⟩ := by
  unfold assess_signal_quality
  rw [popVarQ_replicate n c hn, listMaxQ_replicate n c hn, listMinQ_replicate n c hn,
    sub_self]
  rw [if_pos (by norm_num : (0 : ℚ) < 100 ∨ (0 : ℚ) < 50)]
  rw [show ((0 : ℚ) : ℝ) = 0 from Rat.cast_zero, Real.sqrt_zero, npRoundR_zero,
    npRoundQ_zero]

theorem lmAux_allZero (x : List ℚ) (hx : AllZero x) :
    ∀ fuel i : ℕ, lmAux x fuel i = [] := by
  intro fuel
  induction fuel with
  | zero =>
    intro i
    rfl
  | succ f ih =>
    intro i
    unfold lmAux
    rw [allZero_getD x hx (i - 1), allZero_getD x hx i]
    split_ifs with h1 h2 h3
    · exact absurd h2 (lt_irrefl 0)
    · exact absurd h2 (lt_irrefl 0)
    · exact ih (i + 1)
    · rfl

theorem localMaxima_allZero (x : List ℚ) (hx : AllZero x) : localMaxima x = [] :=
  lmAux_allZero x hx x.length 1

theorem findPeaksHD_allZero (x : List ℚ) (h : ℚ) (d : ℕ) (hx : AllZero x) :
    findPeaksHD x h d = [] := by
  rw [findPeaksHD_eq, localMaxima_allZero x hx]
  rfl

theorem diffQ_cons_cons (a b : ℚ) (t : List ℚ) :
    diffQ (a :: b :: t) = (b - a) :: diffQ (b :: t) := rfl

theorem diffQ_allZero : ∀ l : List ℚ, AllZero l → AllZero (diffQ l) := by
  intro l
  induction l with
  | nil =>
    intro _ q hq
    simp [diffQ] at hq
  | cons a t ih =>
    intro h q hq
    cases t with
    | nil => simp [diffQ] at hq
    | cons b t' =>
      rw [diffQ_cons_cons] at hq
      rcases List.mem_cons.1 hq with rfl | hq'
      · rw [h b (by simp), h a (by simp)]
        ring
      · exact ih (fun v hv => h v (List.mem_cons_of_mem a hv)) q hq'

theorem map_sq_allZero (l : List ℚ) (h : AllZero l) :
    AllZero (l.map (fun v => v ^ 2)) := by
  intro q hq
  rcases List.mem_map.1 hq with ⟨v, hv, rfl⟩
  rw [h v hv]
  ring

theorem convFull_allZero (u v : List ℚ) (hu : AllZero u) : AllZero (convFull u v) := by
  intro q hq
  unfold convFull at hq
  rcases List.mem_map.1 hq with ⟨k, _, rfl⟩
  apply List.sum_eq_zero
  intro t ht
  rcases List.mem_map.1 ht with ⟨i, _, rfl⟩
  split_ifs with hik
  · rw [allZero_getD u hu]
    ring
  · rfl

theorem convolveSame_allZero (u v : List ℚ) (hu : AllZero u) :
    AllZero (convolveSame u v) := by
  intro q hq
  unfold convolveSame at hq
  exact convFull_allZero u v hu q (List.mem_of_mem_drop (List.mem_of_mem_take hq))

theorem integratedOf_allZero (filtered : List ℚ) (sr : ℚ) (h : AllZero filtered) :
    AllZero (integratedOf filtered sr) := by
  unfold integratedOf
  exact convolveSame_allZero _ _ (map_sq_allZero _ (diffQ_allZero _ h))

theorem preprocess_flat (b a zi : List ℚ) (n : ℕ) (c sr : ℚ)
    (hn : 3 * max a.length b.length < n) (hsr : 30 < sr) :
    preprocess b a zi (List.replicate n c) sr = .ok (List.replicate n 0) := by
  have hc1 : ¬ (5 / (sr / 2) ≤ 0 ∨ 1 ≤ 15 / (sr / 2)) := by
    push_neg
    constructor
    · exact div_pos (by norm_num) (by linarith)
    · rw [div_lt_one (by linarith)]
      linarith
  have hc2 : ¬ ((List.replicate n c).length ≤ 3 * max a.length b.length) := by
    rw [List.length_replicate]
    omega
  unfold preprocess
  rw [if_neg hc1, if_neg hc2, sub_mean_replicate n c (by omega),
    filtfilt_zero b a zi _ (allZero_replicate n), List.length_replicate]

theorem detect_flat (b a zi : List ℚ) (n : ℕ) (c sr : ℚ)
    (hn : 3 * max a.length b.length < n) (hsr : 30 < sr) :
    detect_qrs_pan_tompkins b a zi (List.replicate n c) sr = .ok [] := by
  unfold detect_qrs_pan_tompkins
  rw [preprocess_flat b a zi n c sr hn hsr]
  simp only [Except.bind]
  rw [findPeaksHD_allZero _ _ _ (integratedOf_allZero _ sr (allZero_replicate n))]

theorem buildResult_heartRate (sq : SignalQuality) (peaks : List ℕ) (sr : ℚ) :
    (buildResult sq peaks sr).details.heartRate =
      npRoundQ (calculate_heart_rate peaks sr).1 1 := rfl

theorem calculate_heart_rate_nil (sr : ℚ) : calculate_heart_rate [] sr = (0, []) := by
  unfold calculate_heart_rate
  rw [if_pos (by norm_num)]

/-- Every constant-amplitude trace (long enough for the filter and with a
valid sample rate) resolves to the insufficient-data outcome: Poor signal
quality, heart rate 0, classification "Insufficient Data", risk level
"Unknown" and confidence 0.50. -/
theorem analyze_flat (b a zi : List ℚ) (n : ℕ) (c sr : ℚ)
    (hn : 3 * max a.length b.length < n) (hsr : 30 < sr) :
    (analyze b a zi (List.replicate n c) sr).details.signalQuality =
        some ⟨"Poor", 3/10, 0, 0⟩ ∧
    (analyze b a zi (List.replicate n c) sr).details.heartRate = 0 ∧
    (analyze b a zi (List.replicate n c) sr).classification = "Insufficient Data" ∧
    (analyze b a zi (List.replicate n c) sr).confidence = 1/2 ∧
    (analyze b a zi (List.replicate n c) sr).risk_level = "Unknown" := by
  rw [analyze_ok b a zi _ sr [] (detect_flat b a zi n c sr hn hsr),
    assess_flat n c (by omega)]
  refine ⟨buildResult_quality _ _ _, ?_, ?_, ?_, ?_⟩
  · rw [buildResult_heartRate, calculate_heart_rate_nil]
    exact npRoundQ_zero 1
  · rw [buildResult_classification, calculate_heart_rate_nil]
    rfl
  · rw [buildResult_confidence]
    simp only [List.length_nil]
    have hcc : confidence_calc
        (SignalQuality.quality ⟨"Poor", 3/10, 0, 0⟩) 0 = 1/2 := by
      unfold confidence_calc
      rw [if_neg (by simp), if_neg (by simp)]
    rw [hcc]
    exact npRoundQ_half
  · rw [buildResult_risk, calculate_heart_rate_nil]
    rfl

/-- C1 (amended): for every constant-amplitude signal (longer than the
filter padding, with a valid sample rate) `analyze` returns signal quality
"Poor", heart rate 0 and confidence 0.50 as claimed — but the classification
is "Insufficient Data" with risk level "Unknown", not "Normal Sinus Rhythm":
zero detected peaks short-circuit the rule engine before its default rule. -/
theorem C1_flat_signal_amended (b a zi : List ℚ) (n : ℕ) (c sr : ℚ)
    (hn : 3 * max a.length b.length < n) (hsr : 30 < sr) :
    (analyze b a zi (List.replicate n c) sr).details.signalQuality =
        some ⟨"Poor", 3/10, 0, 0⟩ ∧
    (analyze b a zi (List.replicate n c) sr).details.heartRate = 0 ∧
    (analyze b a zi (List.replicate n c) sr).classification = "Insufficient Data" ∧
    (analyze b a zi (List.replicate n c) sr).confidence = 1/2 ∧
    (analyze b a zi (List.replicate n c) sr).risk_level = "Unknown" :=
  analyze_flat b a zi n c sr hn hsr

/-- Counterexample to C1 as stated: the constant trace of one hundred
samples of 1 mV at 250 Hz is classified "Insufficient Data", not the claimed
"Normal Sinus Rhythm". -/
theorem C1_counterexample :
    (analyze [1] [1] [] (List.replicate 100 1) 250).classification = "Insufficient Data" ∧
    ("Insufficient Data" : String) ≠ "Normal Sinus Rhythm" :=
  ⟨(analyze_flat [1] [1] [] 100 1 250 (by decide) (by norm_num)).2.2.1, by decide⟩

/-- Witness for C1 (amended) at the same concrete flat input. -/
theorem C1_witness :
    (3 * max ([1] : List ℚ).length ([1] : List ℚ).length < 100 ∧ (30 : ℚ) < 250) ∧
    ((analyze [1] [1] [] (List.replicate 100 1) 250).details.signalQuality =
        some ⟨"Poor", 3/10, 0, 0⟩ ∧
      (analyze [1] [1] [] (List.replicate 100 1) 250).details.heartRate = 0 ∧
      (analyze [1] [1] [] (List.replicate 100 1) 250).classification =
        "Insufficient Data" ∧
      (analyze [1] [1] [] (List.replicate 100 1) 250).confidence = 1/2 ∧
      (analyze [1] [1] [] (List.replicate 100 1) 250).risk_level = "Unknown") :=
  ⟨⟨by decide, by norm_num⟩,
   C1_flat_signal_amended [1] [1] [] 100 1 250 (by decide) (by norm_num)⟩
